import Mathlib

/-!
Verification development for the mbse planar multibody library core:
a shallow embedding of `CAssembledRigidModel_common.cpp` and
`FactorGyroscope.cpp`, followed by theorems about the embedded operations.
Doubles are modelled as real numbers; `std::vector`/Eigen vectors as `List ℝ`;
throwing operations return `Except String`.
-/

set_option maxHeartbeats 1000000

noncomputable section

/-- 2D point or vector (mrpt::math::TPoint2D). -/
structure TPoint2D where
  x : ℝ
  y : ℝ

instance : Inhabited TPoint2D := ⟨⟨0, 0⟩⟩

/-- A mechanism point: static coordinates plus the fixed/free flag (mbse::Point2). -/
structure Point2 where
  coords : TPoint2D
  fixed : Bool

instance : Inhabited Point2 := ⟨⟨⟨0, 0⟩, true⟩⟩

/-- A 2x2 real block, used for the mass partition blocks M00, M01, M11 of a body. -/
structure Mat2 where
  a11 : ℝ
  a12 : ℝ
  a21 : ℝ
  a22 : ℝ

/-- Bilinear form `uᵀ M v` of a 2x2 block, as Eigen evaluates
`u.transpose() * M * v` to a scalar. -/
def Mat2.bilin (M : Mat2) (u v : TPoint2D) : ℝ :=
  u.x * (M.a11 * v.x + M.a12 * v.y) + u.y * (M.a21 * v.x + M.a22 * v.y)

/-- Rigid body data (mbse::CBody). The list of point indices, the stored scalar
length, mass, body-local center of gravity, and the mass partition blocks.
Modelled from the spec: the CBody implementation (getM00/getM01/getM11,
computed from mass and inertia) is not among the sources, so the blocks are
carried as data fields, which is all the sources here read. -/
structure CBody where
  points : List ℕ
  length : ℝ
  mass : ℝ
  cog : TPoint2D
  M00 : Mat2
  M01 : Mat2
  M11 : Mat2

instance : Inhabited CBody :=
  ⟨⟨[], 0, 0, ⟨0, 0⟩, ⟨0, 0, 0, 0⟩, ⟨0, 0, 0, 0⟩, ⟨0, 0, 0, 0⟩⟩⟩

/-- Axis selector of a Euclidean DOF (mbse::PointDOF). The C++ enum has X, Y
and Z members: `dof2letter` in `CAssembledRigidModel_common.cpp` prints all
three, and the constructor's switch has a default branch that throws. -/
inductive PointDOF
  | X
  | Y
  | Z
deriving DecidableEq

/-- One Euclidean degree of freedom: a point index plus an axis. -/
structure EuclideanDOF where
  point_index : ℕ
  point_dof : PointDOF
deriving DecidableEq

/-- Relative-angle DOF over three points (mbse::RelativeAngleDOF). -/
structure RelativeAngleDOF where
  point_idx0 : ℕ
  point_idx1 : ℕ
  point_idx2 : ℕ
deriving DecidableEq

/-- Relative-angle-w.r.t.-ground DOF over two points
(mbse::RelativeAngleAbsoluteDOF). -/
structure RelativeAngleAbsoluteDOF where
  point_idx0 : ℕ
  point_idx1 : ℕ
deriving DecidableEq

/-- A relative coordinate (mbse::RelativeDOF, a std::variant). The constructor
dispatches with `holds_alternative` on the two known alternatives and throws
otherwise. Modelled from the spec: the header defining the variant is not
among the sources; `otherVariant` stands for any alternative of the variant
other than the two recognized ones. -/
inductive RelativeDOF
  | relAngle (c : RelativeAngleDOF)
  | relAngleAbs (c : RelativeAngleAbsoluteDOF)
  | otherVariant
deriving DecidableEq

/-- Whether a relative DOF is one of the two variants the assembly recognizes. -/
def RelativeDOF.recognized : RelativeDOF → Bool
  | RelativeDOF.relAngle _ => true
  | RelativeDOF.relAngleAbs _ => true
  | RelativeDOF.otherVariant => false

/-- Constraint objects, as a closed sum over the constraint kinds the sources
create (CConstraintConstantDistance, CConstraintRelativeAngle,
CConstraintRelativeAngleAbsolute). -/
inductive CConstraint
  | constantDistance (pt0 pt1 : ℕ) (len : ℝ)
  | relativeAngle (pt0 pt1 pt2 : ℕ) (idxInQ : ℕ)
  | relativeAngleAbsolute (pt0 pt1 : ℕ) (idxInQ : ℕ)

/-- The symbolic mechanism description (mbse::CModelDefinition): points,
bodies, the constraints added so far, and the flag recording whether the
fixed-length closure constraints were already generated. -/
structure CModelDefinition where
  points : List Point2
  bodies : List CBody
  constraints : List CConstraint
  already_added_fixed_len_constraints : Bool

/-- Result of the symbolic assembly (mbse::TSymbolicAssembledModel). -/
structure TSymbolicAssembledModel where
  model : CModelDefinition
  DOFs : List EuclideanDOF
  rDOFs : List RelativeDOF

/-- Reverse point-to-DOF lookup entry (mbse::Point2ToDOF); `none` plays the
role of INVALID_DOF and means the axis is fixed. -/
structure Point2ToDOF where
  dof_x : Option ℕ
  dof_y : Option ℕ
deriving DecidableEq

instance : Inhabited Point2ToDOF := ⟨⟨none, none⟩⟩

/-- The assembled model (mbse::CAssembledRigidModel): parent definition,
gravity, dense state vectors, DOF tables, reverse lookup and constraints. -/
structure CAssembledRigidModel where
  parent : CModelDefinition
  gravity0 : ℝ
  gravity1 : ℝ
  gravity2 : ℝ
  q : List ℝ
  dotq : List ℝ
  ddotq : List ℝ
  Q : List ℝ
  DOFs : List EuclideanDOF
  rDOFs : List RelativeDOF
  points2DOFs : List Point2ToDOF
  relCoordinate2Index : List ℕ
  constraints : List CConstraint

/-- CAssembledRigidModel::getPointCurrentCoords: per axis, the current q entry
when that axis has a DOF column, else the static fixed coordinate. -/
def CAssembledRigidModel.getPointCurrentCoords
    (m : CAssembledRigidModel) (pt_idx : ℕ) : TPoint2D :=
  let pt_info := m.parent.points.getD pt_idx default
  let pt_dofs := m.points2DOFs.getD pt_idx default
  { x := match pt_dofs.dof_x with
      | some i => m.q.getD i 0
      | none => pt_info.coords.x
    y := match pt_dofs.dof_y with
      | some i => m.q.getD i 0
      | none => pt_info.coords.y }

/-- CAssembledRigidModel::getPointCurrentVelocity: the current dq entry for a
free axis and exactly 0 for a fixed axis. -/
def CAssembledRigidModel.getPointCurrentVelocity
    (m : CAssembledRigidModel) (pt_idx : ℕ) : TPoint2D :=
  let pt_dofs := m.points2DOFs.getD pt_idx default
  { x := match pt_dofs.dof_x with
      | some i => m.dotq.getD i 0
      | none => 0
    y := match pt_dofs.dof_y with
      | some i => m.dotq.getD i 0
      | none => 0 }

/-- CAssembledRigidModel::copyStateFrom: bulk-replace this instance's q and dq
with the other instance's; no other field is touched. -/
def CAssembledRigidModel.copyStateFrom
    (m o : CAssembledRigidModel) : CAssembledRigidModel :=
  { m with q := o.q, dotq := o.dotq }

/-- CAssembledRigidModel::getPointOnBodyCurrentCoords: reconstructs a point
rigidly attached to a body. The director is divided by the body's stored
length `b.length()` (`Linv = 1.0 / L`), and the `ASSERTDEB_` guards (compiled
in debug builds) check the body index and `L > 0` before the division. -/
def CAssembledRigidModel.getPointOnBodyCurrentCoords
    (m : CAssembledRigidModel) (body_index : ℕ) (relative_pt : TPoint2D) :
    Except String TPoint2D :=
  if body_index < m.parent.bodies.length then
    let b := m.parent.bodies.getD body_index default
    let q0 := m.getPointCurrentCoords (b.points.getD 0 0)
    let q1 := m.getPointCurrentCoords (b.points.getD 1 0)
    if 0 < b.length then
      let Linv := 1 / b.length
      let ux := (q1.x - q0.x) * Linv
      let uy := (q1.y - q0.y) * Linv
      Except.ok ⟨q0.x + ux * relative_pt.x + (-uy) * relative_pt.y,
                 q0.y + uy * relative_pt.x + ux * relative_pt.y⟩
    else Except.error ("ASSERTDEB failed: L > 0")
  else Except.error ("ASSERTDEB failed: body_index < bodies.size")

/-- The arithmetic of getPointOnBodyCurrentCoords with the guards stripped,
used to phrase theorems about the value the guarded version returns. -/
def pointOnBodyPure (m : CAssembledRigidModel) (body_index : ℕ)
    (relative_pt : TPoint2D) : TPoint2D :=
  let b := m.parent.bodies.getD body_index default
  let q0 := m.getPointCurrentCoords (b.points.getD 0 0)
  let q1 := m.getPointCurrentCoords (b.points.getD 1 0)
  let Linv := 1 / b.length
  let ux := (q1.x - q0.x) * Linv
  let uy := (q1.y - q0.y) * Linv
  ⟨q0.x + ux * relative_pt.x + (-uy) * relative_pt.y,
   q0.y + uy * relative_pt.x + ux * relative_pt.y⟩

/-- Energy triple returned by evaluateEnergy
(CAssembledRigidModel::TEnergyValues). -/
structure TEnergyValues where
  E_total : ℝ
  E_kin : ℝ
  E_pot : ℝ

/-- Accumulation loop of CAssembledRigidModel::evaluateEnergy over the first
`k` bodies, returning the accumulated (E_kin, E_pot) pair. -/
def CAssembledRigidModel.energyOfFirstBodies (m : CAssembledRigidModel) :
    ℕ → Except String (ℝ × ℝ)
  | 0 => Except.ok (0, 0)
  | k + 1 =>
    match m.energyOfFirstBodies k with
    | Except.error e => Except.error e
    | Except.ok (ekin, epot) =>
      let b := m.parent.bodies.getD k default
      let dq0 := m.getPointCurrentVelocity (b.points.getD 0 0)
      let dq1 := m.getPointCurrentVelocity (b.points.getD 1 0)
      match m.getPointOnBodyCurrentCoords k b.cog with
      | Except.error e => Except.error e
      | Except.ok global_cog =>
        Except.ok
          (ekin + (0.5 * (b.M00.bilin dq0 dq0 + b.M11.bilin dq1 dq1) +
            b.M01.bilin dq0 dq1),
           epot - b.mass * (m.gravity0 * global_cog.x +
             m.gravity1 * global_cog.y + m.gravity2 * 0))

/-- CAssembledRigidModel::evaluateEnergy: per-body kinetic terms from the mass
partition blocks and potential terms from gravity dotted with the global
center-of-gravity position; the total is kinetic plus potential. -/
def CAssembledRigidModel.evaluateEnergy (m : CAssembledRigidModel) :
    Except String TEnergyValues :=
  match m.energyOfFirstBodies m.parent.bodies.length with
  | Except.error e => Except.error e
  | Except.ok (ekin, epot) => Except.ok ⟨ekin + epot, ekin, epot⟩

/-- Loop of the CAssembledRigidModel constructor over the Euclidean DOF list:
initializes q entries from the free points' static coordinates and fills the
point-to-DOF reverse lookup; `pts.at` throws on a bad index and the switch's
default branch (axis Z) throws. -/
def initEuclideanDOFs (pts : List Point2) :
    List EuclideanDOF → ℕ → List ℝ → List Point2ToDOF →
    Except String (List ℝ × List Point2ToDOF)
  | [], _, qacc, p2d => Except.ok (qacc, p2d)
  | d :: rest, i, qacc, p2d =>
    match pts[d.point_index]? with
    | none => Except.error ("getPointInfo: point index out of range")
    | some pt =>
      match d.point_dof with
      | PointDOF.X =>
        initEuclideanDOFs pts rest (i + 1) (qacc.set i pt.coords.x)
          (p2d.set d.point_index
            { p2d.getD d.point_index default with dof_x := some i })
      | PointDOF.Y =>
        initEuclideanDOFs pts rest (i + 1) (qacc.set i pt.coords.y)
          (p2d.set d.point_index
            { p2d.getD d.point_index default with dof_y := some i })
      | PointDOF.Z =>
        Except.error ("Unexpected value for DOFs[i].point_dof")

/-- Loop of the constructor over the relative DOF list: one extra constraint
per relative DOF, dispatched on the variant alternative, together with the
reverse lookup `relCoordinate2Index`; an unrecognized alternative throws. -/
def buildRelativeConstraints (nE : ℕ) :
    List RelativeDOF → ℕ → Except String (List CConstraint × List ℕ)
  | [], _ => Except.ok ([], [])
  | r :: rest, i =>
    match r with
    | RelativeDOF.relAngle c =>
      match buildRelativeConstraints nE rest (i + 1) with
      | Except.error e => Except.error e
      | Except.ok (cs, idxs) =>
        Except.ok
          (CConstraint.relativeAngle c.point_idx0 c.point_idx1 c.point_idx2
            (nE + i) :: cs, (nE + i) :: idxs)
    | RelativeDOF.relAngleAbs c =>
      match buildRelativeConstraints nE rest (i + 1) with
      | Except.error e => Except.error e
      | Except.ok (cs, idxs) =>
        Except.ok
          (CConstraint.relativeAngleAbsolute c.point_idx0 c.point_idx1
            (nE + i) :: cs, (nE + i) :: idxs)
    | RelativeDOF.otherVariant =>
      Except.error ("Unknown type of relative coordinate")

/-- The CAssembledRigidModel constructor: asserts a positive number of
Euclidean DOFs, allocates the four state vectors at |E| + |R|, initializes q
and the reverse lookup from the Euclidean DOFs, clones the parent's
constraints, and appends one constraint per relative DOF. -/
def CAssembledRigidModel.construct (armi : TSymbolicAssembledModel) :
    Except String CAssembledRigidModel :=
  let nEuclideanDOFs := armi.DOFs.length
  let nRelativeDOFs := armi.rDOFs.length
  let nDOFs := nEuclideanDOFs + nRelativeDOFs
  if nEuclideanDOFs = 0 then
    Except.error ("Trying to assemble model with 0 Natural Coordinate DOFs")
  else
    match initEuclideanDOFs armi.model.points armi.DOFs 0
        (List.replicate nDOFs 0)
        (List.replicate armi.model.points.length ⟨none, none⟩) with
    | Except.error e => Except.error e
    | Except.ok (q0, p2d) =>
      match buildRelativeConstraints nEuclideanDOFs armi.rDOFs 0 with
      | Except.error e => Except.error e
      | Except.ok (relCs, relIdx) =>
        Except.ok
          { parent := armi.model
            gravity0 := 0
            gravity1 := -9.81
            gravity2 := 0
            q := q0
            dotq := List.replicate nDOFs 0
            ddotq := List.replicate nDOFs 0
            Q := List.replicate nDOFs 0
            DOFs := armi.DOFs
            rDOFs := armi.rDOFs
            points2DOFs := p2d
            relCoordinate2Index := relIdx
            constraints := armi.model.constraints ++ relCs }

/-- Euclidean distance of two points, as `(a - b).norm()` computes it. -/
def ptDist (p q : TPoint2D) : ℝ :=
  Real.sqrt ((p.x - q.x) ^ 2 + (p.y - q.y) ^ 2)

/-- DOF enumeration pass of CModelDefinition::assembleRigidMBS: two Euclidean
DOFs (X then Y) for every non-fixed point, in point order. -/
def euclideanDOFsFrom : List Point2 → ℕ → List EuclideanDOF
  | [], _ => []
  | pt :: rest, i =>
    (if pt.fixed then [] else [⟨i, PointDOF.X⟩, ⟨i, PointDOF.Y⟩]) ++
      euclideanDOFsFrom rest (i + 1)

/-- The pair list the default (n >= 4) branch of assembleRigidMBS builds:
{0,1}, then (0,j) and (1,j) for each j from 2 to n-1. -/
def pairsForBody (n : ℕ) : List (ℕ × ℕ) :=
  (0, 1) :: (List.range' 2 (n - 2)).flatMap (fun j => [(0, j), (1, j)])

/-- One constant-distance closure constraint per listed pair of body-local
point positions; the constraint length is the initial inter-point distance and
the `ASSERT_` guards check the global point indices. -/
def constraintsForPairs (points : List Point2) (bpts : List ℕ) :
    List (ℕ × ℕ) → Except String (List CConstraint)
  | [] => Except.ok []
  | (i, j) :: rest =>
    if bpts.getD i 0 < points.length ∧ bpts.getD j 0 < points.length then
      match constraintsForPairs points bpts rest with
      | Except.error e => Except.error e
      | Except.ok cs =>
        Except.ok
          (CConstraint.constantDistance (bpts.getD i 0) (bpts.getD j 0)
            (ptDist (points.getD (bpts.getD i 0) default).coords
              (points.getD (bpts.getD j 0) default).coords) :: cs)
    else Except.error ("ASSERT failed: body point index out of range")

/-- The switch of assembleRigidMBS on the number of points of one body: <2
throws; 2 adds the single pair (0,1) with the body's stored length; 3 adds the
three pairs with computed lengths; >=4 adds the `pairsForBody` pairs with
computed lengths. -/
def constraintsForBody (points : List Point2) (b : CBody) :
    Except String (List CConstraint) :=
  match b.points.length with
  | 0 => Except.error ("Body has an invalid number of points")
  | 1 => Except.error ("Body has an invalid number of points")
  | 2 =>
    if b.points.getD 0 0 < points.length ∧ b.points.getD 1 0 < points.length then
      Except.ok
        [CConstraint.constantDistance (b.points.getD 0 0) (b.points.getD 1 0)
          b.length]
    else Except.error ("ASSERT failed: body point index out of range")
  | 3 => constraintsForPairs points b.points [(0, 1), (0, 2), (1, 2)]
  | n + 4 => constraintsForPairs points b.points (pairsForBody (n + 4))

/-- Body loop of assembleRigidMBS, concatenating the per-body closure
constraints in body order. -/
def constraintsForBodies (points : List Point2) :
    List CBody → Except String (List CConstraint)
  | [] => Except.ok []
  | b :: rest =>
    match constraintsForBody points b with
    | Except.error e => Except.error e
    | Except.ok cs =>
      match constraintsForBodies points rest with
      | Except.error e => Except.error e
      | Except.ok cs2 => Except.ok (cs ++ cs2)

/-- CModelDefinition::assembleRigidMBS (symbolic pass): enumerates the
Euclidean DOFs and, on the first call only (guarded by
`already_added_fixed_len_constraints_`), generates the per-body closure
constraints into the model definition. -/
def CModelDefinition.assembleRigidMBS (m : CModelDefinition) :
    Except String (List EuclideanDOF × CModelDefinition) :=
  let DOFs := euclideanDOFsFrom m.points 0
  if m.already_added_fixed_len_constraints then Except.ok (DOFs, m)
  else
    match constraintsForBodies m.points m.bodies with
    | Except.error e => Except.error e
    | Except.ok cs =>
      Except.ok (DOFs,
        { m with
          constraints := m.constraints ++ cs
          already_added_fixed_len_constraints := true })

/-- The scalar rate FactorGyroscope::evaluateError computes: unit director
u from pt0 to pt1 via `len = u.norm(); len_inv = 1.0/len`, the +90 degree
direction v, the projection of the relative velocity on v, times `len_inv`. -/
def gyroW (pt0 pt1 pt0vel pt1vel : TPoint2D) : ℝ :=
  let len := Real.sqrt ((pt1.x - pt0.x) ^ 2 + (pt1.y - pt0.y) ^ 2)
  let len_inv := 1 / len
  let ux := (pt1.x - pt0.x) * len_inv
  let uy := (pt1.y - pt0.y) * len_inv
  let vx := -uy
  let vy := ux
  let rel_vel_x := pt1vel.x - pt0vel.x
  let rel_vel_y := pt1vel.y - pt0vel.y
  let rel_vel_value := rel_vel_x * vx + rel_vel_y * vy
  rel_vel_value * len_inv

/-- H1 entry the code writes at the column of pt0's x DOF. -/
def gyroH1_p0x (pt0 pt1 pt0vel pt1vel : TPoint2D) (len_inv : ℝ) : ℝ :=
  len_inv * len_inv * (pt0vel.y - pt1vel.y) -
    2 * len_inv * len_inv * len_inv * len_inv * (pt0.x - pt1.x) *
      ((pt0.x - pt1.x) * (pt0vel.y - pt1vel.y) -
        (pt0.y - pt1.y) * (pt0vel.x - pt1vel.x))

/-- H1 entry the code writes at the column of pt0's y DOF. -/
def gyroH1_p0y (pt0 pt1 pt0vel pt1vel : TPoint2D) (len_inv : ℝ) : ℝ :=
  -(len_inv * len_inv) * (pt0vel.x - pt1vel.x) +
    2 * len_inv * len_inv * len_inv * len_inv * (pt0.y - pt1.y) *
      ((pt0.y - pt1.y) * (pt0vel.x - pt1vel.x) -
        (pt0.x - pt1.x) * (pt0vel.y - pt1vel.y))

/-- H1 entry the code writes at the column of pt1's x DOF. -/
def gyroH1_p1x (pt0 pt1 pt0vel pt1vel : TPoint2D) (len_inv : ℝ) : ℝ :=
  -(len_inv * len_inv) * (pt0vel.y - pt1vel.y) +
    2 * len_inv * len_inv * len_inv * len_inv * (pt0.x - pt1.x) *
      ((pt0.x - pt1.x) * (pt0vel.y - pt1vel.y) -
        (pt0.y - pt1.y) * (pt0vel.x - pt1vel.x))

/-- H1 entry the code writes at the column of pt1's y DOF. -/
def gyroH1_p1y (pt0 pt1 pt0vel pt1vel : TPoint2D) (len_inv : ℝ) : ℝ :=
  len_inv * len_inv * (pt0vel.x - pt1vel.x) +
    2 * len_inv * len_inv * len_inv * len_inv * (pt0.y - pt1.y) *
      (-((pt0.y - pt1.y) * (pt0vel.x - pt1vel.x)) +
        (pt0.x - pt1.x) * (pt0vel.y - pt1vel.y))

/-- H2 entry the code writes at the column of pt0's x DOF. -/
def gyroH2_p0x (pt0 pt1 : TPoint2D) (len_inv : ℝ) : ℝ :=
  len_inv * len_inv * (pt1.y - pt0.y)

/-- H2 entry the code writes at the column of pt0's y DOF. -/
def gyroH2_p0y (pt0 pt1 : TPoint2D) (len_inv : ℝ) : ℝ :=
  len_inv * len_inv * (pt0.x - pt1.x)

/-- H2 entry the code writes at the column of pt1's x DOF. -/
def gyroH2_p1x (pt0 pt1 : TPoint2D) (len_inv : ℝ) : ℝ :=
  len_inv * len_inv * (pt0.y - pt1.y)

/-- H2 entry the code writes at the column of pt1's y DOF. -/
def gyroH2_p1y (pt0 pt1 : TPoint2D) (len_inv : ℝ) : ℝ :=
  len_inv * len_inv * (pt1.x - pt0.x)

/-- One conditional Jacobian-row write, `if (i = dof; i != INVALID_DOF)
Hv(0, i) = e`: write entry e at the column when the axis has one, else leave
the row unchanged. -/
def optSet (r : List ℝ) (o : Option ℕ) (e : ℝ) : List ℝ :=
  match o with
  | some i => r.set i e
  | none => r

/-- The H1 row (d err / d q) of FactorGyroscope::evaluateError: a zero row of
width n, then one conditional write per endpoint axis, skipped when the axis
has no DOF column (INVALID_DOF). -/
def gyroH1row (dofs0 dofs1 : Point2ToDOF) (n : ℕ)
    (pt0 pt1 pt0vel pt1vel : TPoint2D) (len_inv : ℝ) : List ℝ :=
  optSet (optSet (optSet (optSet (List.replicate n (0 : ℝ))
    dofs0.dof_x (gyroH1_p0x pt0 pt1 pt0vel pt1vel len_inv))
    dofs0.dof_y (gyroH1_p0y pt0 pt1 pt0vel pt1vel len_inv))
    dofs1.dof_x (gyroH1_p1x pt0 pt1 pt0vel pt1vel len_inv))
    dofs1.dof_y (gyroH1_p1y pt0 pt1 pt0vel pt1vel len_inv)

/-- The H2 row (d err / d dq) of FactorGyroscope::evaluateError. -/
def gyroH2row (dofs0 dofs1 : Point2ToDOF) (n : ℕ)
    (pt0 pt1 : TPoint2D) (len_inv : ℝ) : List ℝ :=
  optSet (optSet (optSet (optSet (List.replicate n (0 : ℝ))
    dofs0.dof_x (gyroH2_p0x pt0 pt1 len_inv))
    dofs0.dof_y (gyroH2_p0y pt0 pt1 len_inv))
    dofs1.dof_x (gyroH2_p1x pt0 pt1 len_inv))
    dofs1.dof_y (gyroH2_p1y pt0 pt1 len_inv)

/-- The gyroscope factor: designated body index, measured reading, and the
shared assembled model the factor writes into. -/
structure FactorGyroscope where
  body_idx : ℕ
  reading : ℝ
  arm : CAssembledRigidModel

/-- Result of FactorGyroscope::evaluateError: the error vector, the optional
Jacobian blocks, and the shared model as left after the call (its q and dq
were overwritten). -/
structure GyroEvalResult where
  err : List ℝ
  H1 : Option (List ℝ)
  H2 : Option (List ℝ)
  arm : CAssembledRigidModel

/-- FactorGyroscope::evaluateError: checks the two state vector lengths,
writes q_k and dq_k into the shared model, reads the body's two reference
points through the DOF-indexed lookups, and returns the one-element residual
plus the requested analytic Jacobian rows. -/
def FactorGyroscope.evaluateError (f : FactorGyroscope)
    (q_k dq_k : List ℝ) (wantH1 wantH2 : Bool) :
    Except String GyroEvalResult :=
  let n := q_k.length
  if dq_k.length ≠ n then Except.error ("Inconsistent vector lengths!")
  else if n < 1 then Except.error ("Empty state vector!")
  else
    let arm := { f.arm with q := q_k, dotq := dq_k }
    if f.body_idx < arm.parent.bodies.length then
      let body := arm.parent.bodies.getD f.body_idx default
      let pt0_idx := body.points.getD 0 0
      let pt1_idx := body.points.getD 1 0
      let pt0 := arm.getPointCurrentCoords pt0_idx
      let pt1 := arm.getPointCurrentCoords pt1_idx
      let pt0vel := arm.getPointCurrentVelocity pt0_idx
      let pt1vel := arm.getPointCurrentVelocity pt1_idx
      let len := Real.sqrt ((pt1.x - pt0.x) ^ 2 + (pt1.y - pt0.y) ^ 2)
      let len_inv := 1 / len
      let dofs0 := arm.points2DOFs.getD pt0_idx default
      let dofs1 := arm.points2DOFs.getD pt1_idx default
      Except.ok
        { err := [gyroW pt0 pt1 pt0vel pt1vel - f.reading]
          H1 := if wantH1 then
              some (gyroH1row dofs0 dofs1 n pt0 pt1 pt0vel pt1vel len_inv)
            else none
          H2 := if wantH2 then
              some (gyroH2row dofs0 dofs1 n pt0 pt1 len_inv)
            else none
          arm := arm }
    else Except.error ("ASSERT_BELOW_ failed: m_body_idx")

/-- The scalar residual of the gyroscope factor as a function of the two state
vectors, for phrasing derivative statements. -/
def FactorGyroscope.residualAt (f : FactorGyroscope) (q dq : List ℝ) : ℝ :=
  let arm := { f.arm with q := q, dotq := dq }
  let body := arm.parent.bodies.getD f.body_idx default
  let pt0 := arm.getPointCurrentCoords (body.points.getD 0 0)
  let pt1 := arm.getPointCurrentCoords (body.points.getD 1 0)
  let pt0vel := arm.getPointCurrentVelocity (body.points.getD 0 0)
  let pt1vel := arm.getPointCurrentVelocity (body.points.getD 1 0)
  gyroW pt0 pt1 pt0vel pt1vel - f.reading

/-- The rate formula as the spec words it: the projection of the relative
velocity of the two points onto the +90 degree rotation of the unit director,
normalized by the segment length. -/
def specGyroRate (p0 p1 v0 v1 : TPoint2D) : ℝ :=
  let dist := Real.sqrt ((p1.x - p0.x) ^ 2 + (p1.y - p0.y) ^ 2)
  let u : TPoint2D := ⟨(p1.x - p0.x) / dist, (p1.y - p0.y) / dist⟩
  let vperp : TPoint2D := ⟨-u.y, u.x⟩
  ((v1.x - v0.x) * vperp.x + (v1.y - v0.y) * vperp.y) / dist

/-- The body point reconstruction as the claim words it, with an explicit
normalizing length: p0 + off.x * u + off.y * v where u = (p1 - p0) / L and v
is the +90 degree rotation of u. -/
def specPointOnBody (p0 p1 off : TPoint2D) (L : ℝ) : TPoint2D :=
  let u : TPoint2D := ⟨(p1.x - p0.x) / L, (p1.y - p0.y) / L⟩
  let v : TPoint2D := ⟨-u.y, u.x⟩
  ⟨p0.x + off.x * u.x + off.y * v.x, p0.y + off.x * u.y + off.y * v.y⟩

/-- Reading back a freshly written list entry. -/
theorem getD_set_eq_of_lt :
    ∀ (l : List ℝ) (i : ℕ) (a : ℝ), i < l.length → (l.set i a).getD i 0 = a
  | _ :: _, 0, _, _ => rfl
  | _ :: xs, n + 1, a, h => getD_set_eq_of_lt xs n a (Nat.lt_of_succ_lt_succ h)

/-- Writing one list entry leaves the others unchanged. -/
theorem getD_set_of_ne :
    ∀ (l : List ℝ) (i j : ℕ) (a : ℝ), i ≠ j →
      (l.set i a).getD j 0 = l.getD j 0
  | [], _, _, _, _ => rfl
  | _ :: _, 0, 0, _, h => absurd rfl h
  | _ :: _, 0, _ + 1, _, _ => rfl
  | _ :: _, _ + 1, 0, _, _ => rfl
  | _ :: xs, i + 1, j + 1, a, h =>
    getD_set_of_ne xs i j a (fun hh => h (by rw [hh]))

/-- Every entry of the all-zero list reads zero. -/
theorem getD_replicate_zero : ∀ (n i : ℕ), (List.replicate n (0 : ℝ)).getD i 0 = 0
  | 0, 0 => rfl
  | 0, _ + 1 => rfl
  | _ + 1, 0 => rfl
  | n + 1, i + 1 => getD_replicate_zero n i

/-- On a segment of positive squared length the rate w computed through
`len = sqrt(..); len_inv = 1/len` equals the rational expression
(dx * ry - dy * rx) / (dx^2 + dy^2). -/
theorem gyroW_eq_div (p0 p1 v0 v1 : TPoint2D)
    (hD : 0 < (p1.x - p0.x) ^ 2 + (p1.y - p0.y) ^ 2) :
    gyroW p0 p1 v0 v1 =
      ((p1.x - p0.x) * (v1.y - v0.y) - (p1.y - p0.y) * (v1.x - v0.x)) /
        ((p1.x - p0.x) ^ 2 + (p1.y - p0.y) ^ 2) := by
  have hs : Real.sqrt ((p1.x - p0.x) ^ 2 + (p1.y - p0.y) ^ 2) *
      Real.sqrt ((p1.x - p0.x) ^ 2 + (p1.y - p0.y) ^ 2) =
      (p1.x - p0.x) ^ 2 + (p1.y - p0.y) ^ 2 := Real.mul_self_sqrt hD.le
  calc gyroW p0 p1 v0 v1
      = ((p1.x - p0.x) * (v1.y - v0.y) - (p1.y - p0.y) * (v1.x - v0.x)) /
        (Real.sqrt ((p1.x - p0.x) ^ 2 + (p1.y - p0.y) ^ 2) *
         Real.sqrt ((p1.x - p0.x) ^ 2 + (p1.y - p0.y) ^ 2)) := by
        unfold gyroW
        simp only
        ring
    _ = ((p1.x - p0.x) * (v1.y - v0.y) - (p1.y - p0.y) * (v1.x - v0.x)) /
        ((p1.x - p0.x) ^ 2 + (p1.y - p0.y) ^ 2) := by rw [hs]

/-- The square of the reciprocal square root. -/
theorem sqrtInv_mul_self (D : ℝ) (hD : 0 < D) :
    (1 / Real.sqrt D) * (1 / Real.sqrt D) = 1 / D := by
  rw [div_mul_div_comm, one_mul, Real.mul_self_sqrt hD.le]

/-- The H1 entry for pt0.x is the derivative of the rate w.r.t. pt0.x. -/
theorem hasDerivAt_gyroW_p0x (p0y p1x p1y v0x v0y v1x v1y x0 : ℝ)
    (hD : 0 < (p1x - x0) ^ 2 + (p1y - p0y) ^ 2) :
    HasDerivAt (fun t => gyroW ⟨t, p0y⟩ ⟨p1x, p1y⟩ ⟨v0x, v0y⟩ ⟨v1x, v1y⟩)
      (gyroH1_p0x ⟨x0, p0y⟩ ⟨p1x, p1y⟩ ⟨v0x, v0y⟩ ⟨v1x, v1y⟩
        (1 / Real.sqrt ((p1x - x0) ^ 2 + (p1y - p0y) ^ 2))) x0 := by
  have hN : HasDerivAt
      (fun t => (p1x - t) * (v1y - v0y) - (p1y - p0y) * (v1x - v0x))
      (-1 * (v1y - v0y)) x0 :=
    (((hasDerivAt_id x0).const_sub p1x).mul_const (v1y - v0y)).sub_const
      ((p1y - p0y) * (v1x - v0x))
  have hDD : HasDerivAt (fun t => (p1x - t) ^ 2 + (p1y - p0y) ^ 2)
      ((2 : ℕ) * (p1x - x0) ^ 1 * -1) x0 :=
    (((hasDerivAt_id x0).const_sub p1x).pow 2).add_const ((p1y - p0y) ^ 2)
  have hdiv := hN.div hDD (ne_of_gt hD)
  have hopen : IsOpen {t : ℝ | 0 < (p1x - t) ^ 2 + (p1y - p0y) ^ 2} :=
    isOpen_lt continuous_const (by continuity)
  have hev : (fun t => gyroW ⟨t, p0y⟩ ⟨p1x, p1y⟩ ⟨v0x, v0y⟩ ⟨v1x, v1y⟩) =ᶠ[nhds x0]
      (fun t => ((p1x - t) * (v1y - v0y) - (p1y - p0y) * (v1x - v0x)) /
        ((p1x - t) ^ 2 + (p1y - p0y) ^ 2)) := by
    filter_upwards [hopen.mem_nhds hD] with t ht
    exact gyroW_eq_div ⟨t, p0y⟩ ⟨p1x, p1y⟩ ⟨v0x, v0y⟩ ⟨v1x, v1y⟩ ht
  have hmain := hdiv.congr_of_eventuallyEq hev
  convert hmain using 1
  have hinv := sqrtInv_mul_self ((p1x - x0) ^ 2 + (p1y - p0y) ^ 2) hD
  calc gyroH1_p0x ⟨x0, p0y⟩ ⟨p1x, p1y⟩ ⟨v0x, v0y⟩ ⟨v1x, v1y⟩
        (1 / Real.sqrt ((p1x - x0) ^ 2 + (p1y - p0y) ^ 2))
      = (1 / Real.sqrt ((p1x - x0) ^ 2 + (p1y - p0y) ^ 2) *
          (1 / Real.sqrt ((p1x - x0) ^ 2 + (p1y - p0y) ^ 2))) * (v0y - v1y) -
        2 * ((1 / Real.sqrt ((p1x - x0) ^ 2 + (p1y - p0y) ^ 2) *
          (1 / Real.sqrt ((p1x - x0) ^ 2 + (p1y - p0y) ^ 2))) *
          (1 / Real.sqrt ((p1x - x0) ^ 2 + (p1y - p0y) ^ 2) *
          (1 / Real.sqrt ((p1x - x0) ^ 2 + (p1y - p0y) ^ 2)))) * (x0 - p1x) *
          ((x0 - p1x) * (v0y - v1y) - (p0y - p1y) * (v0x - v1x)) := by
        unfold gyroH1_p0x
        ring
    _ = (1 / ((p1x - x0) ^ 2 + (p1y - p0y) ^ 2)) * (v0y - v1y) -
        2 * ((1 / ((p1x - x0) ^ 2 + (p1y - p0y) ^ 2)) *
          (1 / ((p1x - x0) ^ 2 + (p1y - p0y) ^ 2))) * (x0 - p1x) *
          ((x0 - p1x) * (v0y - v1y) - (p0y - p1y) * (v0x - v1x)) := by rw [hinv]
    _ = (-1 * (v1y - v0y) * ((p1x - x0) ^ 2 + (p1y - p0y) ^ 2) -
          ((p1x - x0) * (v1y - v0y) - (p1y - p0y) * (v1x - v0x)) *
            ((2 : ℕ) * (p1x - x0) ^ 1 * -1)) /
        ((p1x - x0) ^ 2 + (p1y - p0y) ^ 2) ^ 2 := by
        field_simp
        ring

/-- The H1 entry for pt0.y is the derivative of the rate w.r.t. pt0.y. -/
theorem hasDerivAt_gyroW_p0y (p0x p1x p1y v0x v0y v1x v1y x0 : ℝ)
    (hD : 0 < (p1x - p0x) ^ 2 + (p1y - x0) ^ 2) :
    HasDerivAt (fun t => gyroW ⟨p0x, t⟩ ⟨p1x, p1y⟩ ⟨v0x, v0y⟩ ⟨v1x, v1y⟩)
      (gyroH1_p0y ⟨p0x, x0⟩ ⟨p1x, p1y⟩ ⟨v0x, v0y⟩ ⟨v1x, v1y⟩
        (1 / Real.sqrt ((p1x - p0x) ^ 2 + (p1y - x0) ^ 2))) x0 := by
  have hN : HasDerivAt
      (fun t => (p1x - p0x) * (v1y - v0y) - (p1y - t) * (v1x - v0x))
      (-(-1 * (v1x - v0x))) x0 :=
    (((hasDerivAt_id x0).const_sub p1y).mul_const (v1x - v0x)).const_sub
      ((p1x - p0x) * (v1y - v0y))
  have hDD : HasDerivAt (fun t => (p1x - p0x) ^ 2 + (p1y - t) ^ 2)
      ((2 : ℕ) * (p1y - x0) ^ 1 * -1) x0 :=
    ((((hasDerivAt_id x0).const_sub p1y).pow 2).const_add ((p1x - p0x) ^ 2))
  have hdiv := hN.div hDD (ne_of_gt hD)
  have hopen : IsOpen {t : ℝ | 0 < (p1x - p0x) ^ 2 + (p1y - t) ^ 2} :=
    isOpen_lt continuous_const (by continuity)
  have hev : (fun t => gyroW ⟨p0x, t⟩ ⟨p1x, p1y⟩ ⟨v0x, v0y⟩ ⟨v1x, v1y⟩) =ᶠ[nhds x0]
      (fun t => ((p1x - p0x) * (v1y - v0y) - (p1y - t) * (v1x - v0x)) /
        ((p1x - p0x) ^ 2 + (p1y - t) ^ 2)) := by
    filter_upwards [hopen.mem_nhds hD] with t ht
    exact gyroW_eq_div ⟨p0x, t⟩ ⟨p1x, p1y⟩ ⟨v0x, v0y⟩ ⟨v1x, v1y⟩ ht
  have hmain := hdiv.congr_of_eventuallyEq hev
  convert hmain using 1
  have hinv := sqrtInv_mul_self ((p1x - p0x) ^ 2 + (p1y - x0) ^ 2) hD
  calc gyroH1_p0y ⟨p0x, x0⟩ ⟨p1x, p1y⟩ ⟨v0x, v0y⟩ ⟨v1x, v1y⟩
        (1 / Real.sqrt ((p1x - p0x) ^ 2 + (p1y - x0) ^ 2))
      = (1 / Real.sqrt ((p1x - p0x) ^ 2 + (p1y - x0) ^ 2) *
          (1 / Real.sqrt ((p1x - p0x) ^ 2 + (p1y - x0) ^ 2))) * (-(v0x - v1x)) +
        2 * ((1 / Real.sqrt ((p1x - p0x) ^ 2 + (p1y - x0) ^ 2) *
          (1 / Real.sqrt ((p1x - p0x) ^ 2 + (p1y - x0) ^ 2))) *
          (1 / Real.sqrt ((p1x - p0x) ^ 2 + (p1y - x0) ^ 2) *
          (1 / Real.sqrt ((p1x - p0x) ^ 2 + (p1y - x0) ^ 2)))) * (x0 - p1y) *
          ((x0 - p1y) * (v0x - v1x) - (p0x - p1x) * (v0y - v1y)) := by
        unfold gyroH1_p0y
        ring
    _ = (1 / ((p1x - p0x) ^ 2 + (p1y - x0) ^ 2)) * (-(v0x - v1x)) +
        2 * ((1 / ((p1x - p0x) ^ 2 + (p1y - x0) ^ 2)) *
          (1 / ((p1x - p0x) ^ 2 + (p1y - x0) ^ 2))) * (x0 - p1y) *
          ((x0 - p1y) * (v0x - v1x) - (p0x - p1x) * (v0y - v1y)) := by rw [hinv]
    _ = (-(-1 * (v1x - v0x)) * ((p1x - p0x) ^ 2 + (p1y - x0) ^ 2) -
          ((p1x - p0x) * (v1y - v0y) - (p1y - x0) * (v1x - v0x)) *
            ((2 : ℕ) * (p1y - x0) ^ 1 * -1)) /
        ((p1x - p0x) ^ 2 + (p1y - x0) ^ 2) ^ 2 := by
        field_simp
        ring

/-- The H1 entry for pt1.x is the derivative of the rate w.r.t. pt1.x. -/
theorem hasDerivAt_gyroW_p1x (p0x p0y p1y v0x v0y v1x v1y x0 : ℝ)
    (hD : 0 < (x0 - p0x) ^ 2 + (p1y - p0y) ^ 2) :
    HasDerivAt (fun t => gyroW ⟨p0x, p0y⟩ ⟨t, p1y⟩ ⟨v0x, v0y⟩ ⟨v1x, v1y⟩)
      (gyroH1_p1x ⟨p0x, p0y⟩ ⟨x0, p1y⟩ ⟨v0x, v0y⟩ ⟨v1x, v1y⟩
        (1 / Real.sqrt ((x0 - p0x) ^ 2 + (p1y - p0y) ^ 2))) x0 := by
  have hN : HasDerivAt
      (fun t => (t - p0x) * (v1y - v0y) - (p1y - p0y) * (v1x - v0x))
      (1 * (v1y - v0y)) x0 :=
    (((hasDerivAt_id x0).sub_const p0x).mul_const (v1y - v0y)).sub_const
      ((p1y - p0y) * (v1x - v0x))
  have hDD : HasDerivAt (fun t => (t - p0x) ^ 2 + (p1y - p0y) ^ 2)
      ((2 : ℕ) * (x0 - p0x) ^ 1 * 1) x0 :=
    (((hasDerivAt_id x0).sub_const p0x).pow 2).add_const ((p1y - p0y) ^ 2)
  have hdiv := hN.div hDD (ne_of_gt hD)
  have hopen : IsOpen {t : ℝ | 0 < (t - p0x) ^ 2 + (p1y - p0y) ^ 2} :=
    isOpen_lt continuous_const (by continuity)
  have hev : (fun t => gyroW ⟨p0x, p0y⟩ ⟨t, p1y⟩ ⟨v0x, v0y⟩ ⟨v1x, v1y⟩) =ᶠ[nhds x0]
      (fun t => ((t - p0x) * (v1y - v0y) - (p1y - p0y) * (v1x - v0x)) /
        ((t - p0x) ^ 2 + (p1y - p0y) ^ 2)) := by
    filter_upwards [hopen.mem_nhds hD] with t ht
    exact gyroW_eq_div ⟨p0x, p0y⟩ ⟨t, p1y⟩ ⟨v0x, v0y⟩ ⟨v1x, v1y⟩ ht
  have hmain := hdiv.congr_of_eventuallyEq hev
  convert hmain using 1
  have hinv := sqrtInv_mul_self ((x0 - p0x) ^ 2 + (p1y - p0y) ^ 2) hD
  calc gyroH1_p1x ⟨p0x, p0y⟩ ⟨x0, p1y⟩ ⟨v0x, v0y⟩ ⟨v1x, v1y⟩
        (1 / Real.sqrt ((x0 - p0x) ^ 2 + (p1y - p0y) ^ 2))
      = (1 / Real.sqrt ((x0 - p0x) ^ 2 + (p1y - p0y) ^ 2) *
          (1 / Real.sqrt ((x0 - p0x) ^ 2 + (p1y - p0y) ^ 2))) * (-(v0y - v1y)) +
        2 * ((1 / Real.sqrt ((x0 - p0x) ^ 2 + (p1y - p0y) ^ 2) *
          (1 / Real.sqrt ((x0 - p0x) ^ 2 + (p1y - p0y) ^ 2))) *
          (1 / Real.sqrt ((x0 - p0x) ^ 2 + (p1y - p0y) ^ 2) *
          (1 / Real.sqrt ((x0 - p0x) ^ 2 + (p1y - p0y) ^ 2)))) * (p0x - x0) *
          ((p0x - x0) * (v0y - v1y) - (p0y - p1y) * (v0x - v1x)) := by
        unfold gyroH1_p1x
        ring
    _ = (1 / ((x0 - p0x) ^ 2 + (p1y - p0y) ^ 2)) * (-(v0y - v1y)) +
        2 * ((1 / ((x0 - p0x) ^ 2 + (p1y - p0y) ^ 2)) *
          (1 / ((x0 - p0x) ^ 2 + (p1y - p0y) ^ 2))) * (p0x - x0) *
          ((p0x - x0) * (v0y - v1y) - (p0y - p1y) * (v0x - v1x)) := by rw [hinv]
    _ = (1 * (v1y - v0y) * ((x0 - p0x) ^ 2 + (p1y - p0y) ^ 2) -
          ((x0 - p0x) * (v1y - v0y) - (p1y - p0y) * (v1x - v0x)) *
            ((2 : ℕ) * (x0 - p0x) ^ 1 * 1)) /
        ((x0 - p0x) ^ 2 + (p1y - p0y) ^ 2) ^ 2 := by
        field_simp
        ring

/-- The H1 entry for pt1.y is the derivative of the rate w.r.t. pt1.y. -/
theorem hasDerivAt_gyroW_p1y (p0x p0y p1x v0x v0y v1x v1y x0 : ℝ)
    (hD : 0 < (p1x - p0x) ^ 2 + (x0 - p0y) ^ 2) :
    HasDerivAt (fun t => gyroW ⟨p0x, p0y⟩ ⟨p1x, t⟩ ⟨v0x, v0y⟩ ⟨v1x, v1y⟩)
      (gyroH1_p1y ⟨p0x, p0y⟩ ⟨p1x, x0⟩ ⟨v0x, v0y⟩ ⟨v1x, v1y⟩
        (1 / Real.sqrt ((p1x - p0x) ^ 2 + (x0 - p0y) ^ 2))) x0 := by
  have hN : HasDerivAt
      (fun t => (p1x - p0x) * (v1y - v0y) - (t - p0y) * (v1x - v0x))
      (-(1 * (v1x - v0x))) x0 :=
    (((hasDerivAt_id x0).sub_const p0y).mul_const (v1x - v0x)).const_sub
      ((p1x - p0x) * (v1y - v0y))
  have hDD : HasDerivAt (fun t => (p1x - p0x) ^ 2 + (t - p0y) ^ 2)
      ((2 : ℕ) * (x0 - p0y) ^ 1 * 1) x0 :=
    (((hasDerivAt_id x0).sub_const p0y).pow 2).const_add ((p1x - p0x) ^ 2)
  have hdiv := hN.div hDD (ne_of_gt hD)
  have hopen : IsOpen {t : ℝ | 0 < (p1x - p0x) ^ 2 + (t - p0y) ^ 2} :=
    isOpen_lt continuous_const (by continuity)
  have hev : (fun t => gyroW ⟨p0x, p0y⟩ ⟨p1x, t⟩ ⟨v0x, v0y⟩ ⟨v1x, v1y⟩) =ᶠ[nhds x0]
      (fun t => ((p1x - p0x) * (v1y - v0y) - (t - p0y) * (v1x - v0x)) /
        ((p1x - p0x) ^ 2 + (t - p0y) ^ 2)) := by
    filter_upwards [hopen.mem_nhds hD] with t ht
    exact gyroW_eq_div ⟨p0x, p0y⟩ ⟨p1x, t⟩ ⟨v0x, v0y⟩ ⟨v1x, v1y⟩ ht
  have hmain := hdiv.congr_of_eventuallyEq hev
  convert hmain using 1
  have hinv := sqrtInv_mul_self ((p1x - p0x) ^ 2 + (x0 - p0y) ^ 2) hD
  calc gyroH1_p1y ⟨p0x, p0y⟩ ⟨p1x, x0⟩ ⟨v0x, v0y⟩ ⟨v1x, v1y⟩
        (1 / Real.sqrt ((p1x - p0x) ^ 2 + (x0 - p0y) ^ 2))
      = (1 / Real.sqrt ((p1x - p0x) ^ 2 + (x0 - p0y) ^ 2) *
          (1 / Real.sqrt ((p1x - p0x) ^ 2 + (x0 - p0y) ^ 2))) * (v0x - v1x) +
        2 * ((1 / Real.sqrt ((p1x - p0x) ^ 2 + (x0 - p0y) ^ 2) *
          (1 / Real.sqrt ((p1x - p0x) ^ 2 + (x0 - p0y) ^ 2))) *
          (1 / Real.sqrt ((p1x - p0x) ^ 2 + (x0 - p0y) ^ 2) *
          (1 / Real.sqrt ((p1x - p0x) ^ 2 + (x0 - p0y) ^ 2)))) * (p0y - x0) *
          (-((p0y - x0) * (v0x - v1x)) + (p0x - p1x) * (v0y - v1y)) := by
        unfold gyroH1_p1y
        ring
    _ = (1 / ((p1x - p0x) ^ 2 + (x0 - p0y) ^ 2)) * (v0x - v1x) +
        2 * ((1 / ((p1x - p0x) ^ 2 + (x0 - p0y) ^ 2)) *
          (1 / ((p1x - p0x) ^ 2 + (x0 - p0y) ^ 2))) * (p0y - x0) *
          (-((p0y - x0) * (v0x - v1x)) + (p0x - p1x) * (v0y - v1y)) := by rw [hinv]
    _ = (-(1 * (v1x - v0x)) * ((p1x - p0x) ^ 2 + (x0 - p0y) ^ 2) -
          ((p1x - p0x) * (v1y - v0y) - (x0 - p0y) * (v1x - v0x)) *
            ((2 : ℕ) * (x0 - p0y) ^ 1 * 1)) /
        ((p1x - p0x) ^ 2 + (x0 - p0y) ^ 2) ^ 2 := by
        field_simp
        ring

/-- The H2 entry for pt0.x is the derivative of the rate w.r.t. pt0vel.x. -/
theorem hasDerivAt_gyroW_v0x (p0x p0y p1x p1y v0y v1x v1y x0 : ℝ)
    (hD : 0 < (p1x - p0x) ^ 2 + (p1y - p0y) ^ 2) :
    HasDerivAt (fun t => gyroW ⟨p0x, p0y⟩ ⟨p1x, p1y⟩ ⟨t, v0y⟩ ⟨v1x, v1y⟩)
      (gyroH2_p0x ⟨p0x, p0y⟩ ⟨p1x, p1y⟩
        (1 / Real.sqrt ((p1x - p0x) ^ 2 + (p1y - p0y) ^ 2))) x0 := by
  have hN : HasDerivAt
      (fun t => (p1x - p0x) * (v1y - v0y) - (p1y - p0y) * (v1x - t))
      (-((p1y - p0y) * -1)) x0 :=
    (((hasDerivAt_id x0).const_sub v1x).const_mul (p1y - p0y)).const_sub
      ((p1x - p0x) * (v1y - v0y))
  have hdiv := hN.div_const ((p1x - p0x) ^ 2 + (p1y - p0y) ^ 2)
  have hev : (fun t => gyroW ⟨p0x, p0y⟩ ⟨p1x, p1y⟩ ⟨t, v0y⟩ ⟨v1x, v1y⟩) =ᶠ[nhds x0]
      (fun t => ((p1x - p0x) * (v1y - v0y) - (p1y - p0y) * (v1x - t)) /
        ((p1x - p0x) ^ 2 + (p1y - p0y) ^ 2)) := by
    filter_upwards with t
    exact gyroW_eq_div ⟨p0x, p0y⟩ ⟨p1x, p1y⟩ ⟨t, v0y⟩ ⟨v1x, v1y⟩ hD
  have hmain := hdiv.congr_of_eventuallyEq hev
  convert hmain using 1
  have hinv := sqrtInv_mul_self ((p1x - p0x) ^ 2 + (p1y - p0y) ^ 2) hD
  calc gyroH2_p0x ⟨p0x, p0y⟩ ⟨p1x, p1y⟩
        (1 / Real.sqrt ((p1x - p0x) ^ 2 + (p1y - p0y) ^ 2))
      = (1 / Real.sqrt ((p1x - p0x) ^ 2 + (p1y - p0y) ^ 2) *
          (1 / Real.sqrt ((p1x - p0x) ^ 2 + (p1y - p0y) ^ 2))) * (p1y - p0y) := by
        unfold gyroH2_p0x
        ring
    _ = (1 / ((p1x - p0x) ^ 2 + (p1y - p0y) ^ 2)) * (p1y - p0y) := by rw [hinv]
    _ = -((p1y - p0y) * -1) / ((p1x - p0x) ^ 2 + (p1y - p0y) ^ 2) := by ring

/-- The H2 entry for pt0.y is the derivative of the rate w.r.t. pt0vel.y. -/
theorem hasDerivAt_gyroW_v0y (p0x p0y p1x p1y v0x v1x v1y x0 : ℝ)
    (hD : 0 < (p1x - p0x) ^ 2 + (p1y - p0y) ^ 2) :
    HasDerivAt (fun t => gyroW ⟨p0x, p0y⟩ ⟨p1x, p1y⟩ ⟨v0x, t⟩ ⟨v1x, v1y⟩)
      (gyroH2_p0y ⟨p0x, p0y⟩ ⟨p1x, p1y⟩
        (1 / Real.sqrt ((p1x - p0x) ^ 2 + (p1y - p0y) ^ 2))) x0 := by
  have hN : HasDerivAt
      (fun t => (p1x - p0x) * (v1y - t) - (p1y - p0y) * (v1x - v0x))
      ((p1x - p0x) * -1) x0 :=
    (((hasDerivAt_id x0).const_sub v1y).const_mul (p1x - p0x)).sub_const
      ((p1y - p0y) * (v1x - v0x))
  have hdiv := hN.div_const ((p1x - p0x) ^ 2 + (p1y - p0y) ^ 2)
  have hev : (fun t => gyroW ⟨p0x, p0y⟩ ⟨p1x, p1y⟩ ⟨v0x, t⟩ ⟨v1x, v1y⟩) =ᶠ[nhds x0]
      (fun t => ((p1x - p0x) * (v1y - t) - (p1y - p0y) * (v1x - v0x)) /
        ((p1x - p0x) ^ 2 + (p1y - p0y) ^ 2)) := by
    filter_upwards with t
    exact gyroW_eq_div ⟨p0x, p0y⟩ ⟨p1x, p1y⟩ ⟨v0x, t⟩ ⟨v1x, v1y⟩ hD
  have hmain := hdiv.congr_of_eventuallyEq hev
  convert hmain using 1
  have hinv := sqrtInv_mul_self ((p1x - p0x) ^ 2 + (p1y - p0y) ^ 2) hD
  calc gyroH2_p0y ⟨p0x, p0y⟩ ⟨p1x, p1y⟩
        (1 / Real.sqrt ((p1x - p0x) ^ 2 + (p1y - p0y) ^ 2))
      = (1 / Real.sqrt ((p1x - p0x) ^ 2 + (p1y - p0y) ^ 2) *
          (1 / Real.sqrt ((p1x - p0x) ^ 2 + (p1y - p0y) ^ 2))) * (p0x - p1x) := by
        unfold gyroH2_p0y
        ring
    _ = (1 / ((p1x - p0x) ^ 2 + (p1y - p0y) ^ 2)) * (p0x - p1x) := by rw [hinv]
    _ = (p1x - p0x) * -1 / ((p1x - p0x) ^ 2 + (p1y - p0y) ^ 2) := by ring

/-- The H2 entry for pt1.x is the derivative of the rate w.r.t. pt1vel.x. -/
theorem hasDerivAt_gyroW_v1x (p0x p0y p1x p1y v0x v0y v1y x0 : ℝ)
    (hD : 0 < (p1x - p0x) ^ 2 + (p1y - p0y) ^ 2) :
    HasDerivAt (fun t => gyroW ⟨p0x, p0y⟩ ⟨p1x, p1y⟩ ⟨v0x, v0y⟩ ⟨t, v1y⟩)
      (gyroH2_p1x ⟨p0x, p0y⟩ ⟨p1x, p1y⟩
        (1 / Real.sqrt ((p1x - p0x) ^ 2 + (p1y - p0y) ^ 2))) x0 := by
  have hN : HasDerivAt
      (fun t => (p1x - p0x) * (v1y - v0y) - (p1y - p0y) * (t - v0x))
      (-((p1y - p0y) * 1)) x0 :=
    (((hasDerivAt_id x0).sub_const v0x).const_mul (p1y - p0y)).const_sub
      ((p1x - p0x) * (v1y - v0y))
  have hdiv := hN.div_const ((p1x - p0x) ^ 2 + (p1y - p0y) ^ 2)
  have hev : (fun t => gyroW ⟨p0x, p0y⟩ ⟨p1x, p1y⟩ ⟨v0x, v0y⟩ ⟨t, v1y⟩) =ᶠ[nhds x0]
      (fun t => ((p1x - p0x) * (v1y - v0y) - (p1y - p0y) * (t - v0x)) /
        ((p1x - p0x) ^ 2 + (p1y - p0y) ^ 2)) := by
    filter_upwards with t
    exact gyroW_eq_div ⟨p0x, p0y⟩ ⟨p1x, p1y⟩ ⟨v0x, v0y⟩ ⟨t, v1y⟩ hD
  have hmain := hdiv.congr_of_eventuallyEq hev
  convert hmain using 1
  have hinv := sqrtInv_mul_self ((p1x - p0x) ^ 2 + (p1y - p0y) ^ 2) hD
  calc gyroH2_p1x ⟨p0x, p0y⟩ ⟨p1x, p1y⟩
        (1 / Real.sqrt ((p1x - p0x) ^ 2 + (p1y - p0y) ^ 2))
      = (1 / Real.sqrt ((p1x - p0x) ^ 2 + (p1y - p0y) ^ 2) *
          (1 / Real.sqrt ((p1x - p0x) ^ 2 + (p1y - p0y) ^ 2))) * (p0y - p1y) := by
        unfold gyroH2_p1x
        ring
    _ = (1 / ((p1x - p0x) ^ 2 + (p1y - p0y) ^ 2)) * (p0y - p1y) := by rw [hinv]
    _ = -((p1y - p0y) * 1) / ((p1x - p0x) ^ 2 + (p1y - p0y) ^ 2) := by ring

/-- The H2 entry for pt1.y is the derivative of the rate w.r.t. pt1vel.y. -/
theorem hasDerivAt_gyroW_v1y (p0x p0y p1x p1y v0x v0y v1x x0 : ℝ)
    (hD : 0 < (p1x - p0x) ^ 2 + (p1y - p0y) ^ 2) :
    HasDerivAt (fun t => gyroW ⟨p0x, p0y⟩ ⟨p1x, p1y⟩ ⟨v0x, v0y⟩ ⟨v1x, t⟩)
      (gyroH2_p1y ⟨p0x, p0y⟩ ⟨p1x, p1y⟩
        (1 / Real.sqrt ((p1x - p0x) ^ 2 + (p1y - p0y) ^ 2))) x0 := by
  have hN : HasDerivAt
      (fun t => (p1x - p0x) * (t - v0y) - (p1y - p0y) * (v1x - v0x))
      ((p1x - p0x) * 1) x0 :=
    (((hasDerivAt_id x0).sub_const v0y).const_mul (p1x - p0x)).sub_const
      ((p1y - p0y) * (v1x - v0x))
  have hdiv := hN.div_const ((p1x - p0x) ^ 2 + (p1y - p0y) ^ 2)
  have hev : (fun t => gyroW ⟨p0x, p0y⟩ ⟨p1x, p1y⟩ ⟨v0x, v0y⟩ ⟨v1x, t⟩) =ᶠ[nhds x0]
      (fun t => ((p1x - p0x) * (t - v0y) - (p1y - p0y) * (v1x - v0x)) /
        ((p1x - p0x) ^ 2 + (p1y - p0y) ^ 2)) := by
    filter_upwards with t
    exact gyroW_eq_div ⟨p0x, p0y⟩ ⟨p1x, p1y⟩ ⟨v0x, v0y⟩ ⟨v1x, t⟩ hD
  have hmain := hdiv.congr_of_eventuallyEq hev
  convert hmain using 1
  have hinv := sqrtInv_mul_self ((p1x - p0x) ^ 2 + (p1y - p0y) ^ 2) hD
  calc gyroH2_p1y ⟨p0x, p0y⟩ ⟨p1x, p1y⟩
        (1 / Real.sqrt ((p1x - p0x) ^ 2 + (p1y - p0y) ^ 2))
      = (1 / Real.sqrt ((p1x - p0x) ^ 2 + (p1y - p0y) ^ 2) *
          (1 / Real.sqrt ((p1x - p0x) ^ 2 + (p1y - p0y) ^ 2))) * (p1x - p0x) := by
        unfold gyroH2_p1y
        ring
    _ = (1 / ((p1x - p0x) ^ 2 + (p1y - p0y) ^ 2)) * (p1x - p0x) := by rw [hinv]
    _ = (p1x - p0x) * 1 / ((p1x - p0x) ^ 2 + (p1y - p0y) ^ 2) := by ring

/-- The code rate expression equals the spec rate expression everywhere. -/
theorem gyroW_eq_specGyroRate (p0 p1 v0 v1 : TPoint2D) :
    gyroW p0 p1 v0 v1 = specGyroRate p0 p1 v0 v1 := by
  unfold gyroW specGyroRate
  simp only
  ring

/-- A 2x2 zero block, used in concrete example models. -/
def zeroMat2 : Mat2 := ⟨0, 0, 0, 0⟩

/-- Example body over points 0 and 1 with stored length 1 and mass 3. -/
def exBody : CBody := ⟨[0, 1], 1, 3, ⟨0, 0⟩, zeroMat2, zeroMat2, zeroMat2⟩

/-- Example model definition: two free points at (0,0) and (1,0), one body. -/
def exParent : CModelDefinition :=
  ⟨[⟨⟨0, 0⟩, false⟩, ⟨⟨1, 0⟩, false⟩], [exBody], [], true⟩

/-- Example assembled model with four Euclidean DOF columns. -/
def exArm : CAssembledRigidModel :=
  ⟨exParent, 0, -9.81, 0, [0, 0, 1, 0], [0, 0, 0, 1], [0, 0, 0, 0],
   [0, 0, 0, 0],
   [⟨0, PointDOF.X⟩, ⟨0, PointDOF.Y⟩, ⟨1, PointDOF.X⟩, ⟨1, PointDOF.Y⟩],
   [], [⟨some 0, some 1⟩, ⟨some 2, some 3⟩], [], []⟩

/-- A second assembled model over the same definition, in a different state. -/
def exArmB : CAssembledRigidModel :=
  { exArm with q := [5, 6, 7, 8], dotq := [9, 1, 2, 3] }

/-- Example gyroscope factor on body 0 with reading 1. -/
def exFactor : FactorGyroscope := ⟨0, 1, exArm⟩

/-- C5: getPointCurrentCoords returns, per axis, the current q entry when that
axis is a DOF and the point's static fixed coordinate otherwise;
getPointCurrentVelocity returns the current dq entry for a free axis and
exactly 0 for a fixed axis; and writing a value into q (resp. dq) at a free
axis's DOF column and reading through the accessor returns that value. -/
theorem point_accessors_spec (m : CAssembledRigidModel) (pt : ℕ) :
    ((m.points2DOFs.getD pt default).dof_x = none →
      (m.getPointCurrentCoords pt).x = (m.parent.points.getD pt default).coords.x ∧
      (m.getPointCurrentVelocity pt).x = 0) ∧
    ((m.points2DOFs.getD pt default).dof_y = none →
      (m.getPointCurrentCoords pt).y = (m.parent.points.getD pt default).coords.y ∧
      (m.getPointCurrentVelocity pt).y = 0) ∧
    (∀ i, (m.points2DOFs.getD pt default).dof_x = some i →
      (m.getPointCurrentCoords pt).x = m.q.getD i 0 ∧
      (m.getPointCurrentVelocity pt).x = m.dotq.getD i 0 ∧
      (∀ val : ℝ, i < m.q.length →
        (CAssembledRigidModel.getPointCurrentCoords
          { m with q := m.q.set i val } pt).x = val) ∧
      (∀ val : ℝ, i < m.dotq.length →
        (CAssembledRigidModel.getPointCurrentVelocity
          { m with dotq := m.dotq.set i val } pt).x = val)) ∧
    (∀ i, (m.points2DOFs.getD pt default).dof_y = some i →
      (m.getPointCurrentCoords pt).y = m.q.getD i 0 ∧
      (m.getPointCurrentVelocity pt).y = m.dotq.getD i 0 ∧
      (∀ val : ℝ, i < m.q.length →
        (CAssembledRigidModel.getPointCurrentCoords
          { m with q := m.q.set i val } pt).y = val) ∧
      (∀ val : ℝ, i < m.dotq.length →
        (CAssembledRigidModel.getPointCurrentVelocity
          { m with dotq := m.dotq.set i val } pt).y = val)) := by
  refine ⟨fun hx => ?_, fun hy => ?_, fun i hx => ?_, fun i hy => ?_⟩
  · simp only [CAssembledRigidModel.getPointCurrentCoords,
      CAssembledRigidModel.getPointCurrentVelocity, hx]
    exact ⟨trivial, trivial⟩
  · simp only [CAssembledRigidModel.getPointCurrentCoords,
      CAssembledRigidModel.getPointCurrentVelocity, hy]
    exact ⟨trivial, trivial⟩
  · refine ⟨?_, ?_, fun val hlt => ?_, fun val hlt => ?_⟩
    · simp only [CAssembledRigidModel.getPointCurrentCoords, hx]
    · simp only [CAssembledRigidModel.getPointCurrentVelocity, hx]
    · simp only [CAssembledRigidModel.getPointCurrentCoords, hx]
      exact getD_set_eq_of_lt m.q i val hlt
    · simp only [CAssembledRigidModel.getPointCurrentVelocity, hx]
      exact getD_set_eq_of_lt m.dotq i val hlt
  · refine ⟨?_, ?_, fun val hlt => ?_, fun val hlt => ?_⟩
    · simp only [CAssembledRigidModel.getPointCurrentCoords, hy]
    · simp only [CAssembledRigidModel.getPointCurrentVelocity, hy]
    · simp only [CAssembledRigidModel.getPointCurrentCoords, hy]
      exact getD_set_eq_of_lt m.q i val hlt
    · simp only [CAssembledRigidModel.getPointCurrentVelocity, hy]
      exact getD_set_eq_of_lt m.dotq i val hlt

/-- Witness for C5: the free-axis clauses of `point_accessors_spec` applied to
the concrete model `exArm` at point 0, column 0. -/
theorem point_accessors_spec_witness :
    (exArm.getPointCurrentCoords 0).x = exArm.q.getD 0 0 ∧
    (exArm.getPointCurrentVelocity 0).x = exArm.dotq.getD 0 0 ∧
    (CAssembledRigidModel.getPointCurrentCoords
      { exArm with q := exArm.q.set 0 42 } 0).x = 42 := by
  have h := (point_accessors_spec exArm 0).2.2.1 0 (by rfl)
  exact ⟨h.1, h.2.1, h.2.2.1 42 (by simp [exArm])⟩

/-- C7: after copyStateFrom between models assembled from the same symbolic
definition (same parent and point-to-DOF table), this model's q and dq equal
the other's, both accessors agree on every point between the two models, and
no field other than this model's q and dq is changed. -/
theorem copyStateFrom_spec (a b : CAssembledRigidModel)
    (hpar : a.parent = b.parent) (hp2d : a.points2DOFs = b.points2DOFs) :
    (a.copyStateFrom b).q = b.q ∧
    (a.copyStateFrom b).dotq = b.dotq ∧
    (∀ p, (a.copyStateFrom b).getPointCurrentCoords p =
      b.getPointCurrentCoords p) ∧
    (∀ p, (a.copyStateFrom b).getPointCurrentVelocity p =
      b.getPointCurrentVelocity p) ∧
    (a.copyStateFrom b).DOFs = a.DOFs ∧
    (a.copyStateFrom b).rDOFs = a.rDOFs ∧
    (a.copyStateFrom b).points2DOFs = a.points2DOFs ∧
    (a.copyStateFrom b).parent = a.parent ∧
    (a.copyStateFrom b).ddotq = a.ddotq ∧
    (a.copyStateFrom b).Q = a.Q ∧
    (a.copyStateFrom b).gravity0 = a.gravity0 ∧
    (a.copyStateFrom b).gravity1 = a.gravity1 ∧
    (a.copyStateFrom b).gravity2 = a.gravity2 ∧
    (a.copyStateFrom b).relCoordinate2Index = a.relCoordinate2Index ∧
    (a.copyStateFrom b).constraints = a.constraints := by
  refine ⟨rfl, rfl, fun p => ?_, fun p => ?_, rfl, rfl, rfl, rfl, rfl, rfl,
    rfl, rfl, rfl, rfl, rfl⟩
  · simp [CAssembledRigidModel.copyStateFrom,
      CAssembledRigidModel.getPointCurrentCoords, hpar, hp2d]
  · simp [CAssembledRigidModel.copyStateFrom,
      CAssembledRigidModel.getPointCurrentVelocity, hp2d]

/-- Witness for C7: `copyStateFrom_spec` applied to the two concrete models
`exArm` and `exArmB` built over the same definition. -/
theorem copyStateFrom_spec_witness :
    (exArm.copyStateFrom exArmB).q = exArmB.q ∧
    (∀ p, (exArm.copyStateFrom exArmB).getPointCurrentCoords p =
      exArmB.getPointCurrentCoords p) ∧
    (exArm.copyStateFrom exArmB).points2DOFs = exArm.points2DOFs := by
  have h := copyStateFrom_spec exArm exArmB rfl rfl
  exact ⟨h.1, h.2.2.1, h.2.2.2.2.2.2.1⟩

/-- C10: a successful evaluateError call, with or without Jacobians requested,
leaves the shared assembled model with exactly the supplied q_k and dq_k. -/
theorem evaluateError_writes_state (f : FactorGyroscope) (q_k dq_k : List ℝ)
    (wantH1 wantH2 : Bool)
    (hlen : dq_k.length = q_k.length) (hn : 1 ≤ q_k.length)
    (hbody : f.body_idx < f.arm.parent.bodies.length) :
    (f.evaluateError q_k dq_k wantH1 wantH2).map GyroEvalResult.arm =
      Except.ok { f.arm with q := q_k, dotq := dq_k } ∧
    ({ f.arm with q := q_k, dotq := dq_k } : CAssembledRigidModel).q = q_k ∧
    ({ f.arm with q := q_k, dotq := dq_k } : CAssembledRigidModel).dotq = dq_k := by
  have e1 : ¬(dq_k.length ≠ q_k.length) := by omega
  have e2 : ¬(q_k.length < 1) := by omega
  refine ⟨?_, rfl, rfl⟩
  simp [FactorGyroscope.evaluateError, e1, e2, hbody, Except.map]

/-- Witness for C10: `evaluateError_writes_state` on the concrete factor. -/
theorem evaluateError_writes_state_witness :
    (exFactor.evaluateError [0, 0, 1, 0] [0, 0, 0, 1] true false).map
      GyroEvalResult.arm =
      Except.ok { exArm with q := [0, 0, 1, 0], dotq := [0, 0, 0, 1] } := by
  have h := evaluateError_writes_state exFactor [0, 0, 1, 0] [0, 0, 0, 1]
    true false (by simp) (by simp) (by simp [exFactor, exArm, exParent])
  exact h.1

/-- C2: on a valid body index, evaluateError returns the one-element vector
w - reading where w is the spec rate formula evaluated on the points read
through the DOF-indexed lookups after the state write; and it fails whenever
the two state vectors have mismatched lengths, or zero length. -/
theorem gyro_evaluateError_spec (f : FactorGyroscope) (q_k dq_k : List ℝ)
    (wantH1 wantH2 : Bool)
    (hbody : f.body_idx < f.arm.parent.bodies.length) :
    (dq_k.length = q_k.length → 1 ≤ q_k.length →
      (f.evaluateError q_k dq_k wantH1 wantH2).map GyroEvalResult.err =
        Except.ok [specGyroRate
          (CAssembledRigidModel.getPointCurrentCoords
            { f.arm with q := q_k, dotq := dq_k }
            ((f.arm.parent.bodies.getD f.body_idx default).points.getD 0 0))
          (CAssembledRigidModel.getPointCurrentCoords
            { f.arm with q := q_k, dotq := dq_k }
            ((f.arm.parent.bodies.getD f.body_idx default).points.getD 1 0))
          (CAssembledRigidModel.getPointCurrentVelocity
            { f.arm with q := q_k, dotq := dq_k }
            ((f.arm.parent.bodies.getD f.body_idx default).points.getD 0 0))
          (CAssembledRigidModel.getPointCurrentVelocity
            { f.arm with q := q_k, dotq := dq_k }
            ((f.arm.parent.bodies.getD f.body_idx default).points.getD 1 0)) -
          f.reading]) ∧
    (dq_k.length ≠ q_k.length →
      f.evaluateError q_k dq_k wantH1 wantH2 =
        Except.error ("Inconsistent vector lengths!")) ∧
    (q_k.length = 0 →
      (f.evaluateError q_k dq_k wantH1 wantH2).isOk = false) := by
  refine ⟨fun hlen hn => ?_, fun hne => ?_, fun h0 => ?_⟩
  · have e1 : ¬(dq_k.length ≠ q_k.length) := by omega
    have e2 : ¬(q_k.length < 1) := by omega
    simp [FactorGyroscope.evaluateError, e1, e2, hbody, Except.map,
      gyroW_eq_specGyroRate]
  · simp [FactorGyroscope.evaluateError, hne]
  · by_cases hd : dq_k.length = q_k.length
    · have e2 : q_k.length < 1 := by omega
      have e1 : ¬(dq_k.length ≠ q_k.length) := by omega
      simp [FactorGyroscope.evaluateError, e1, e2, Except.isOk, Except.toBool]
    · simp [FactorGyroscope.evaluateError, hd, Except.isOk, Except.toBool]

/-- Witness for C2: `gyro_evaluateError_spec` on the concrete factor, with the
success branch discharged and the two failure branches at bad inputs. -/
theorem gyro_evaluateError_spec_witness :
    (exFactor.evaluateError [0, 0, 1, 0] [0, 0, 0, 1] false false).map
      GyroEvalResult.err =
      Except.ok [specGyroRate
        (CAssembledRigidModel.getPointCurrentCoords
          { exFactor.arm with q := [0, 0, 1, 0], dotq := [0, 0, 0, 1] }
          ((exFactor.arm.parent.bodies.getD exFactor.body_idx default).points.getD 0 0))
        (CAssembledRigidModel.getPointCurrentCoords
          { exFactor.arm with q := [0, 0, 1, 0], dotq := [0, 0, 0, 1] }
          ((exFactor.arm.parent.bodies.getD exFactor.body_idx default).points.getD 1 0))
        (CAssembledRigidModel.getPointCurrentVelocity
          { exFactor.arm with q := [0, 0, 1, 0], dotq := [0, 0, 0, 1] }
          ((exFactor.arm.parent.bodies.getD exFactor.body_idx default).points.getD 0 0))
        (CAssembledRigidModel.getPointCurrentVelocity
          { exFactor.arm with q := [0, 0, 1, 0], dotq := [0, 0, 0, 1] }
          ((exFactor.arm.parent.bodies.getD exFactor.body_idx default).points.getD 1 0)) -
        exFactor.reading] ∧
    exFactor.evaluateError [0, 0, 1, 0] [0, 0, 0] false false =
      Except.error ("Inconsistent vector lengths!") ∧
    (exFactor.evaluateError [] [] false false).isOk = false := by
  have hb : exFactor.body_idx < exFactor.arm.parent.bodies.length := by
    simp [exFactor, exArm, exParent]
  refine ⟨(gyro_evaluateError_spec exFactor [0, 0, 1, 0] [0, 0, 0, 1]
      false false hb).1 (by simp) (by simp),
    (gyro_evaluateError_spec exFactor [0, 0, 1, 0] [0, 0, 0]
      false false hb).2.1 (by simp),
    (gyro_evaluateError_spec exFactor [] [] false false hb).2.2 (by simp)⟩

/-- C6 (amended): on a valid body index, getPointOnBodyCurrentCoords returns
p0 + off.x * u + off.y * v where u = (p1 - p0) / L is normalized by the body's
STORED length L = b.length() (not the current segment length), and it fails
when the stored length is not positive. -/
theorem pointOnBody_spec (m : CAssembledRigidModel) (bidx : ℕ) (off : TPoint2D)
    (hb : bidx < m.parent.bodies.length) :
    (0 < (m.parent.bodies.getD bidx default).length →
      m.getPointOnBodyCurrentCoords bidx off =
        Except.ok (specPointOnBody
          (m.getPointCurrentCoords
            ((m.parent.bodies.getD bidx default).points.getD 0 0))
          (m.getPointCurrentCoords
            ((m.parent.bodies.getD bidx default).points.getD 1 0))
          off (m.parent.bodies.getD bidx default).length)) ∧
    ((m.parent.bodies.getD bidx default).length ≤ 0 →
      m.getPointOnBodyCurrentCoords bidx off =
        Except.error ("ASSERTDEB failed: L > 0")) := by
  constructor
  · intro hL
    simp only [CAssembledRigidModel.getPointOnBodyCurrentCoords, if_pos hb,
      if_pos hL, specPointOnBody, Except.ok.injEq]
    congr 1 <;> ring
  · intro hL
    have : ¬(0 < (m.parent.bodies.getD bidx default).length) := not_lt.2 hL
    simp only [CAssembledRigidModel.getPointOnBodyCurrentCoords, if_pos hb,
      if_neg this]

/-- Witness for C6: `pointOnBody_spec` applied to the concrete model `exArm`
at body 0 with offset (2, 0). -/
theorem pointOnBody_spec_witness :
    exArm.getPointOnBodyCurrentCoords 0 ⟨2, 0⟩ =
      Except.ok (specPointOnBody
        (exArm.getPointCurrentCoords ((exArm.parent.bodies.getD 0 default).points.getD 0 0))
        (exArm.getPointCurrentCoords ((exArm.parent.bodies.getD 0 default).points.getD 1 0))
        ⟨2, 0⟩ (exArm.parent.bodies.getD 0 default).length) := by
  exact (pointOnBody_spec exArm 0 ⟨2, 0⟩ (by simp [exArm, exParent])).1
    (by simp [exArm, exParent, exBody])

/-- Model for the C6 counterexample: two fixed points at (0,0) and (2,0), one
body whose stored length is 1 while the current segment length is 2. -/
def c6Model : CAssembledRigidModel :=
  ⟨⟨[⟨⟨0, 0⟩, true⟩, ⟨⟨2, 0⟩, true⟩],
    [⟨[0, 1], 1, 1, ⟨0, 0⟩, zeroMat2, zeroMat2, zeroMat2⟩], [], true⟩,
   0, -9.81, 0, [], [], [], [], [], [], [⟨none, none⟩, ⟨none, none⟩], [], []⟩

/-- Counterexample to C6 as stated: with current points (0,0) and (2,0) and
stored body length 1, the code returns (2,0) while the claim formula, with the
director normalized by the current segment length |p1 - p0| = 2, gives (1,0). -/
theorem pointOnBody_claim_counterexample :
    c6Model.getPointOnBodyCurrentCoords 0 ⟨1, 0⟩ = Except.ok ⟨2, 0⟩ ∧
    c6Model.getPointCurrentCoords 0 = ⟨0, 0⟩ ∧
    c6Model.getPointCurrentCoords 1 = ⟨2, 0⟩ ∧
    specPointOnBody ⟨0, 0⟩ ⟨2, 0⟩ ⟨1, 0⟩ (ptDist ⟨0, 0⟩ ⟨2, 0⟩) = ⟨1, 0⟩ ∧
    (Except.ok (⟨2, 0⟩ : TPoint2D) : Except String TPoint2D) ≠
      Except.ok (⟨1, 0⟩ : TPoint2D) := by
  have hdist : ptDist (⟨0, 0⟩ : TPoint2D) ⟨2, 0⟩ = 2 := by
    unfold ptDist
    rw [show ((0 : ℝ) - 2) ^ 2 + ((0 : ℝ) - 0) ^ 2 = 2 ^ 2 by norm_num]
    exact Real.sqrt_sq (by norm_num)
  refine ⟨?_, rfl, rfl, ?_, ?_⟩
  · simp only [CAssembledRigidModel.getPointOnBodyCurrentCoords, c6Model,
      CAssembledRigidModel.getPointCurrentCoords]
    norm_num
  · rw [hdist]
    unfold specPointOnBody
    simp only [TPoint2D.mk.injEq]
    norm_num
  · intro h
    have := Except.ok.inj h
    have hx : (2 : ℝ) = 1 := congrArg TPoint2D.x this
    norm_num at hx

/-- C3: FactorGyroscope::evaluateError performs no zero-length check: with
both reference points at the same location the call succeeds and returns a
residual computed after the division `len_inv = 1.0 / len` with `len = 0`
(in IEEE doubles this silently produces Inf/NaN). -/
theorem gyro_zero_length_no_error :
    ptDist
      (CAssembledRigidModel.getPointCurrentCoords
        { exArm with q := [0, 0, 0, 0], dotq := [1, 2, 3, 4] } 0)
      (CAssembledRigidModel.getPointCurrentCoords
        { exArm with q := [0, 0, 0, 0], dotq := [1, 2, 3, 4] } 1) = 0 ∧
    exFactor.evaluateError [0, 0, 0, 0] [1, 2, 3, 4] false false =
      Except.ok ⟨[-1], none, none,
        { exArm with q := [0, 0, 0, 0], dotq := [1, 2, 3, 4] }⟩ := by
  constructor
  · show ptDist ⟨(0 : ℝ), (0 : ℝ)⟩ ⟨(0 : ℝ), (0 : ℝ)⟩ = 0
    unfold ptDist
    norm_num
  · have hbl : 0 < exArm.parent.bodies.length := by simp [exArm, exParent]
    simp only [FactorGyroscope.evaluateError, exFactor]
    rw [if_neg (by norm_num), if_neg (by norm_num), if_pos hbl]
    simp only [Except.ok.injEq, GyroEvalResult.mk.injEq, List.cons.injEq,
      and_true]
    refine ⟨?_, rfl, rfl⟩
    show gyroW ⟨(0 : ℝ), 0⟩ ⟨(0 : ℝ), 0⟩ ⟨(1 : ℝ), 2⟩ ⟨(3 : ℝ), 4⟩ - 1 = -1
    unfold gyroW
    norm_num

/-- The Euclidean DOF loop of the constructor succeeds when every listed DOF
has an X or Y axis and an existing point, and it preserves the q length. -/
theorem initEuclideanDOFs_ok (pts : List Point2) (dofs : List EuclideanDOF) :
    ∀ (i : ℕ) (qacc : List ℝ) (p2d : List Point2ToDOF),
      (∀ d ∈ dofs, d.point_dof ≠ PointDOF.Z ∧ d.point_index < pts.length) →
      ∃ q2 p2, initEuclideanDOFs pts dofs i qacc p2d = Except.ok (q2, p2) ∧
        q2.length = qacc.length := by
  induction dofs with
  | nil =>
    intro i qacc p2d _
    exact ⟨qacc, p2d, rfl, rfl⟩
  | cons d rest ih =>
    intro i qacc p2d h
    obtain ⟨hz, hlt⟩ := h d (List.mem_cons_self d rest)
    have hget : pts[d.point_index]? = some pts[d.point_index] :=
      List.getElem?_eq_getElem hlt
    have htail : ∀ d2 ∈ rest, d2.point_dof ≠ PointDOF.Z ∧
        d2.point_index < pts.length :=
      fun d2 hd2 => h d2 (List.mem_cons_of_mem d hd2)
    cases hdof : d.point_dof with
    | X =>
      obtain ⟨q2, p2, heq, hlen⟩ := ih (i + 1)
        (qacc.set i pts[d.point_index].coords.x)
        (p2d.set d.point_index
          { p2d.getD d.point_index default with dof_x := some i }) htail
      refine ⟨q2, p2, ?_, ?_⟩
      · simp only [initEuclideanDOFs, hget, hdof]
        exact heq
      · rw [hlen, List.length_set]
    | Y =>
      obtain ⟨q2, p2, heq, hlen⟩ := ih (i + 1)
        (qacc.set i pts[d.point_index].coords.y)
        (p2d.set d.point_index
          { p2d.getD d.point_index default with dof_y := some i }) htail
      refine ⟨q2, p2, ?_, ?_⟩
      · simp only [initEuclideanDOFs, hget, hdof]
        exact heq
      · rw [hlen, List.length_set]
    | Z => exact absurd hdof hz

/-- The relative DOF loop of the constructor succeeds when every entry is one
of the two recognized variant alternatives. -/
theorem buildRelativeConstraints_ok (nE : ℕ) (l : List RelativeDOF) :
    ∀ i, (∀ r ∈ l, r.recognized = true) →
      ∃ cs idxs, buildRelativeConstraints nE l i = Except.ok (cs, idxs) := by
  induction l with
  | nil =>
    intro i _
    exact ⟨[], [], rfl⟩
  | cons r rest ih =>
    intro i h
    obtain ⟨cs, idxs, hp⟩ := ih (i + 1)
      (fun r2 h2 => h r2 (List.mem_cons_of_mem r h2))
    cases r with
    | relAngle c =>
      refine ⟨CConstraint.relativeAngle c.point_idx0 c.point_idx1 c.point_idx2
        (nE + i) :: cs, (nE + i) :: idxs, ?_⟩
      simp only [buildRelativeConstraints, hp]
    | relAngleAbs c =>
      refine ⟨CConstraint.relativeAngleAbsolute c.point_idx0 c.point_idx1
        (nE + i) :: cs, (nE + i) :: idxs, ?_⟩
      simp only [buildRelativeConstraints, hp]
    | otherVariant =>
      have hfalse := h RelativeDOF.otherVariant (List.mem_cons_self _ _)
      simp [RelativeDOF.recognized] at hfalse

/-- The relative DOF loop of the constructor throws whenever the list holds
an alternative other than the two recognized ones. -/
theorem buildRelativeConstraints_err (nE : ℕ) (l : List RelativeDOF) :
    ∀ i, RelativeDOF.otherVariant ∈ l →
      (buildRelativeConstraints nE l i).isOk = false := by
  induction l with
  | nil =>
    intro i h
    cases h
  | cons r rest ih =>
    intro i hmem
    cases r with
    | relAngle c =>
      have hrest : RelativeDOF.otherVariant ∈ rest := by
        rcases List.mem_cons.1 hmem with h | h
        · cases h
        · exact h
      cases hres : buildRelativeConstraints nE rest (i + 1) with
      | error e =>
        simp [buildRelativeConstraints, hres, Except.isOk, Except.toBool]
      | ok p =>
        have hh := ih (i + 1) hrest
        rw [hres] at hh
        simp [Except.isOk, Except.toBool] at hh
    | relAngleAbs c =>
      have hrest : RelativeDOF.otherVariant ∈ rest := by
        rcases List.mem_cons.1 hmem with h | h
        · cases h
        · exact h
      cases hres : buildRelativeConstraints nE rest (i + 1) with
      | error e =>
        simp [buildRelativeConstraints, hres, Except.isOk, Except.toBool]
      | ok p =>
        have hh := ih (i + 1) hrest
        rw [hres] at hh
        simp [Except.isOk, Except.toBool] at hh
    | otherVariant =>
      simp [buildRelativeConstraints, Except.isOk, Except.toBool]

/-- C4 (amended): the constructor fails when the Euclidean DOF list is empty,
fails whenever a relative DOF is of an unrecognized variant alternative, also
fails when a Euclidean DOF has an axis other than X or Y (the C++ enum also
has Z) or references a nonexistent point, and otherwise allocates q, dq, ddq
and Q of length |Euclidean DOFs| + |relative DOFs|. -/
theorem construct_spec (armi : TSymbolicAssembledModel) :
    (armi.DOFs = [] →
      CAssembledRigidModel.construct armi =
        Except.error ("Trying to assemble model with 0 Natural Coordinate DOFs")) ∧
    (RelativeDOF.otherVariant ∈ armi.rDOFs →
      (CAssembledRigidModel.construct armi).isOk = false) ∧
    (armi.DOFs ≠ [] →
      (∀ d ∈ armi.DOFs, d.point_dof ≠ PointDOF.Z ∧
        d.point_index < armi.model.points.length) →
      (∀ r ∈ armi.rDOFs, r.recognized = true) →
      (CAssembledRigidModel.construct armi).map
        (fun m => (m.q.length, m.dotq.length, m.ddotq.length, m.Q.length)) =
        Except.ok (armi.DOFs.length + armi.rDOFs.length,
          armi.DOFs.length + armi.rDOFs.length,
          armi.DOFs.length + armi.rDOFs.length,
          armi.DOFs.length + armi.rDOFs.length)) := by
  refine ⟨fun hempty => ?_, fun hmem => ?_, fun hne hdofs hrel => ?_⟩
  · simp [CAssembledRigidModel.construct, hempty]
  · unfold CAssembledRigidModel.construct
    by_cases h0 : armi.DOFs.length = 0
    · simp [h0, Except.isOk, Except.toBool]
    · simp only [if_neg h0]
      cases hinit : initEuclideanDOFs armi.model.points armi.DOFs 0
          (List.replicate (armi.DOFs.length + armi.rDOFs.length) 0)
          (List.replicate armi.model.points.length ⟨none, none⟩) with
      | error e => simp [Except.isOk, Except.toBool]
      | ok qp =>
        obtain ⟨q2, p2⟩ := qp
        have herr := buildRelativeConstraints_err armi.DOFs.length
          armi.rDOFs 0 hmem
        cases hrel2 : buildRelativeConstraints armi.DOFs.length armi.rDOFs 0 with
        | error e => simp [Except.isOk, Except.toBool]
        | ok p =>
          rw [hrel2] at herr
          simp [Except.isOk, Except.toBool] at herr
  · have h0 : ¬(armi.DOFs.length = 0) := by
      intro h
      exact hne (List.length_eq_zero.1 h)
    obtain ⟨q2, p2, hinit, hlen⟩ := initEuclideanDOFs_ok armi.model.points
      armi.DOFs 0 (List.replicate (armi.DOFs.length + armi.rDOFs.length) 0)
      (List.replicate armi.model.points.length ⟨none, none⟩) hdofs
    obtain ⟨cs, idxs, hbuild⟩ := buildRelativeConstraints_ok armi.DOFs.length
      armi.rDOFs 0 hrel
    unfold CAssembledRigidModel.construct
    simp only [if_neg h0, hinit, hbuild, Except.map]
    rw [hlen]
    simp [List.length_replicate]

/-- Model input for the C4 counterexample: one free point, one Euclidean DOF
with axis Z, no relative DOFs. -/
def c4Armi : TSymbolicAssembledModel :=
  ⟨⟨[⟨⟨0, 0⟩, false⟩], [], [], false⟩, [⟨0, PointDOF.Z⟩], []⟩

/-- Counterexample to C4 as stated: the Euclidean DOF list is nonempty and no
relative DOF is unrecognized, yet the constructor throws (on the Z axis) and
allocates nothing, against the claim's `otherwise it allocates` clause. -/
theorem construct_claim_counterexample :
    c4Armi.DOFs ≠ [] ∧ c4Armi.rDOFs = [] ∧
    CAssembledRigidModel.construct c4Armi =
      Except.error ("Unexpected value for DOFs[i].point_dof") := by
  refine ⟨by simp [c4Armi], rfl, rfl⟩

/-- Well-formed input for the C4 witness: one free point with its two
Euclidean DOFs and one recognized relative DOF. -/
def c4GoodArmi : TSymbolicAssembledModel :=
  ⟨⟨[⟨⟨0, 0⟩, false⟩], [], [], false⟩,
   [⟨0, PointDOF.X⟩, ⟨0, PointDOF.Y⟩],
   [RelativeDOF.relAngleAbs ⟨0, 0⟩]⟩

/-- Witness for C4: `construct_spec` on concrete inputs; the empty-DOF branch,
and the allocation branch giving state vectors of length 2 + 1 = 3. -/
theorem construct_spec_witness :
    CAssembledRigidModel.construct ⟨⟨[], [], [], false⟩, [], []⟩ =
      Except.error ("Trying to assemble model with 0 Natural Coordinate DOFs") ∧
    (CAssembledRigidModel.construct c4GoodArmi).map
      (fun m => (m.q.length, m.dotq.length, m.ddotq.length, m.Q.length)) =
      Except.ok (3, 3, 3, 3) := by
  constructor
  · exact (construct_spec ⟨⟨[], [], [], false⟩, [], []⟩).1 rfl
  · have h := (construct_spec c4GoodArmi).2.2 (by simp [c4GoodArmi])
      (by decide) (by decide)
    simpa [c4GoodArmi] using h

/-- A list entry read with getD at a valid index is a member of the list. -/
theorem getD_mem_of_lt {α : Type} :
    ∀ (l : List α) (k : ℕ) (d : α), k < l.length → l.getD k d ∈ l
  | _ :: _, 0, _, _ => List.mem_cons_self _ _
  | _ :: xs, k + 1, d, h =>
    List.mem_cons_of_mem _ (getD_mem_of_lt xs k d (Nat.lt_of_succ_lt_succ h))

/-- The kinetic term evaluateEnergy accumulates for body k: the mass partition
blocks applied to the two endpoint velocities. -/
def bodyKinTerm (m : CAssembledRigidModel) (k : ℕ) : ℝ :=
  let b := m.parent.bodies.getD k default
  let dq0 := m.getPointCurrentVelocity (b.points.getD 0 0)
  let dq1 := m.getPointCurrentVelocity (b.points.getD 1 0)
  0.5 * (b.M00.bilin dq0 dq0 + b.M11.bilin dq1 dq1) + b.M01.bilin dq0 dq1

/-- The potential term of body k as the claim words it: mass times gravity
dotted with the current global center-of-gravity position obtained by the
body-point reconstruction. -/
def bodyPotTerm (m : CAssembledRigidModel) (k : ℕ) : ℝ :=
  (m.parent.bodies.getD k default).mass *
    (m.gravity0 * (pointOnBodyPure m k (m.parent.bodies.getD k default).cog).x +
     m.gravity1 * (pointOnBodyPure m k (m.parent.bodies.getD k default).cog).y)

/-- Total kinetic energy as a sum over bodies. -/
def kinSum (m : CAssembledRigidModel) : ℝ :=
  ∑ i in Finset.range m.parent.bodies.length, bodyKinTerm m i

/-- Total potential energy as the claim words it: the negated sum over bodies
of mass times gravity dotted with the global center-of-gravity position. -/
def potSum (m : CAssembledRigidModel) : ℝ :=
  -(∑ i in Finset.range m.parent.bodies.length, bodyPotTerm m i)

/-- The energy accumulation loop computes the partial kinetic and potential
sums, provided every body has a positive stored length. -/
theorem energyOfFirstBodies_eq (m : CAssembledRigidModel)
    (hb : ∀ b ∈ m.parent.bodies, 0 < b.length) :
    ∀ k, k ≤ m.parent.bodies.length →
      m.energyOfFirstBodies k = Except.ok
        (∑ i in Finset.range k, bodyKinTerm m i,
         -(∑ i in Finset.range k, bodyPotTerm m i)) := by
  intro k
  induction k with
  | zero =>
    intro _
    simp [CAssembledRigidModel.energyOfFirstBodies]
  | succ n ih =>
    intro hk
    have hlt : n < m.parent.bodies.length :=
      Nat.lt_of_lt_of_le (Nat.lt_succ_self n) hk
    have hlen : 0 < (m.parent.bodies.getD n default).length :=
      hb _ (getD_mem_of_lt m.parent.bodies n default hlt)
    have hpob : m.getPointOnBodyCurrentCoords n
        (m.parent.bodies.getD n default).cog =
        Except.ok (pointOnBodyPure m n (m.parent.bodies.getD n default).cog) := by
      simp only [CAssembledRigidModel.getPointOnBodyCurrentCoords, if_pos hlt,
        if_pos hlen, pointOnBodyPure]
    rw [CAssembledRigidModel.energyOfFirstBodies,
      ih (Nat.le_of_succ_le hk)]
    simp only [hpob, Except.ok.injEq]
    rw [Finset.sum_range_succ, Finset.sum_range_succ]
    refine Prod.ext ?_ ?_
    · simp [bodyKinTerm]
    · simp only
      unfold bodyPotTerm
      ring

/-- C8: evaluateEnergy returns E_pot equal to the negated sum over bodies of
mass times gravity dotted with the reconstructed global center of gravity,
E_total equal to E_kin + E_pot, and E_kin exactly 0 whenever the model's dq
vector is all zeros (all point velocities vanish). -/
theorem evaluateEnergy_spec (m : CAssembledRigidModel)
    (hb : ∀ b ∈ m.parent.bodies, 0 < b.length) :
    m.evaluateEnergy =
      Except.ok ⟨kinSum m + potSum m, kinSum m, potSum m⟩ ∧
    (m.dotq = List.replicate m.dotq.length 0 → kinSum m = 0) := by
  constructor
  · rw [CAssembledRigidModel.evaluateEnergy,
      energyOfFirstBodies_eq m hb m.parent.bodies.length (Nat.le_refl _)]
    rfl
  · intro hdq
    have hz : ∀ i, m.dotq.getD i 0 = 0 := by
      intro i
      rw [hdq]
      exact getD_replicate_zero _ _
    have hv : ∀ p, m.getPointCurrentVelocity p = ⟨0, 0⟩ := by
      intro p
      simp only [CAssembledRigidModel.getPointCurrentVelocity,
        TPoint2D.mk.injEq]
      constructor
      · cases hdx : (m.points2DOFs.getD p default).dof_x with
        | some i => exact hz i
        | none => rfl
      · cases hdy : (m.points2DOFs.getD p default).dof_y with
        | some i => exact hz i
        | none => rfl
    unfold kinSum bodyKinTerm
    simp [hv, Mat2.bilin]

/-- Rest-state example model: same as exArm but with all-zero velocities. -/
def exArmRest : CAssembledRigidModel := { exArm with dotq := [0, 0, 0, 0] }

/-- Witness for C8: `evaluateEnergy_spec` on the concrete rest-state model,
including that its kinetic energy is exactly zero. -/
theorem evaluateEnergy_spec_witness :
    exArmRest.evaluateEnergy =
      Except.ok ⟨kinSum exArmRest + potSum exArmRest, kinSum exArmRest,
        potSum exArmRest⟩ ∧
    kinSum exArmRest = 0 := by
  have hb : ∀ b ∈ exArmRest.parent.bodies, 0 < b.length := by
    intro b hbmem
    simp only [exArmRest, exArm, exParent, List.mem_singleton] at hbmem
    rw [hbmem]
    show (0 : ℝ) < 1
    norm_num
  have h := evaluateEnergy_spec exArmRest hb
  exact ⟨h.1, h.2 rfl⟩

/-- The pair list as the claim words it: (0,1), then (0,j) and (1,j) for each
j from 2 to n-1. -/
def claimedPairs (n : ℕ) : List (ℕ × ℕ) :=
  (0, 1) :: (List.range (n - 2)).flatMap (fun k => [(0, 2 + k), (1, 2 + k)])

/-- The claim's enumeration coincides with the loop the code runs. -/
theorem claimedPairs_eq_pairsForBody (n : ℕ) :
    claimedPairs n = pairsForBody n := by
  unfold claimedPairs pairsForBody
  rw [List.range'_eq_map_range]
  rw [List.flatMap_map]

/-- The closure constraints the claim describes for one body: the single pair
with the body's stored length for a 2-point body, else one constant-distance
constraint per claimed pair with the initial inter-point distance. -/
def expectedBodyConstraints (points : List Point2) (b : CBody) :
    List CConstraint :=
  if b.points.length = 2 then
    [CConstraint.constantDistance (b.points.getD 0 0) (b.points.getD 1 0)
      b.length]
  else
    (claimedPairs b.points.length).map (fun p =>
      CConstraint.constantDistance (b.points.getD p.1 0) (b.points.getD p.2 0)
        (ptDist (points.getD (b.points.getD p.1 0) default).coords
          (points.getD (b.points.getD p.2 0) default).coords))

/-- The pair loop returns exactly one constant-distance constraint per pair,
with the initial inter-point distance as length. -/
theorem constraintsForPairs_ok (points : List Point2) (bpts : List ℕ) :
    ∀ pairs : List (ℕ × ℕ),
      (∀ p ∈ pairs, bpts.getD p.1 0 < points.length ∧
        bpts.getD p.2 0 < points.length) →
      constraintsForPairs points bpts pairs = Except.ok (pairs.map (fun p =>
        CConstraint.constantDistance (bpts.getD p.1 0) (bpts.getD p.2 0)
          (ptDist (points.getD (bpts.getD p.1 0) default).coords
            (points.getD (bpts.getD p.2 0) default).coords))) := by
  intro pairs
  induction pairs with
  | nil =>
    intro _
    rfl
  | cons p rest ih =>
    intro h
    obtain ⟨i, j⟩ := p
    have hp := h (i, j) (List.mem_cons_self _ _)
    rw [constraintsForPairs, if_pos hp,
      ih (fun p2 h2 => h p2 (List.mem_cons_of_mem _ h2))]
    simp

/-- Both components of every pair in the n >= 4 pair list are below n. -/
theorem pairsForBody_bounds (n : ℕ) (h4 : 4 ≤ n) :
    ∀ p ∈ pairsForBody n, p.1 < n ∧ p.2 < n := by
  intro p hp
  unfold pairsForBody at hp
  rcases List.mem_cons.1 hp with h | h
  · subst h
    constructor <;> omega
  · obtain ⟨j, hj, hmem⟩ := List.mem_flatMap.1 h
    have hjr : 2 ≤ j ∧ j < 2 + (n - 2) := List.mem_range'_1.1 hj
    simp only [List.mem_cons, List.mem_singleton] at hmem
    rcases hmem with h2 | h2 | h2
    · subst h2
      constructor <;> omega
    · subst h2
      constructor <;> omega
    · cases h2

/-- One body's generated closure constraints are exactly the claim's list,
amended so that the 2-point case uses the body's stored length. -/
theorem constraintsForBody_eq (points : List Point2) (b : CBody)
    (h2 : 2 ≤ b.points.length)
    (hidx : ∀ j, j < b.points.length → b.points.getD j 0 < points.length) :
    constraintsForBody points b =
      Except.ok (expectedBodyConstraints points b) := by
  unfold constraintsForBody expectedBodyConstraints
  split
  · omega
  · omega
  · rename_i hn
    rw [if_pos hn, if_pos ⟨hidx 0 (by omega), hidx 1 (by omega)⟩]
  · rename_i hn
    rw [if_neg (by omega)]
    rw [constraintsForPairs_ok points b.points [(0, 1), (0, 2), (1, 2)]
      (by
        intro p hp
        simp only [List.mem_cons, List.not_mem_nil, or_false] at hp
        rcases hp with h | h | h <;>
          (subst h; exact ⟨hidx _ (by omega), hidx _ (by omega)⟩))]
    rw [hn, claimedPairs_eq_pairsForBody]
    rfl
  · rename_i k hn
    rw [if_neg (by omega)]
    rw [constraintsForPairs_ok points b.points (pairsForBody (k + 4))
      (by
        intro p hp
        have hb := pairsForBody_bounds (k + 4) (by omega) p hp
        exact ⟨hidx _ (by omega), hidx _ (by omega)⟩)]
    rw [hn, claimedPairs_eq_pairsForBody]

/-- The body loop concatenates the per-body closure constraints in order. -/
theorem constraintsForBodies_eq (points : List Point2) :
    ∀ bodies : List CBody,
      (∀ b ∈ bodies, 2 ≤ b.points.length ∧
        ∀ j, j < b.points.length → b.points.getD j 0 < points.length) →
      constraintsForBodies points bodies =
        Except.ok (bodies.flatMap (expectedBodyConstraints points)) := by
  intro bodies
  induction bodies with
  | nil =>
    intro _
    rfl
  | cons b rest ih =>
    intro h
    obtain ⟨hb2, hbidx⟩ := h b (List.mem_cons_self _ _)
    rw [constraintsForBodies, constraintsForBody_eq points b hb2 hbidx,
      ih (fun b2 h2 => h b2 (List.mem_cons_of_mem _ h2))]
    simp

/-- The body loop aborts whenever some body has fewer than 2 points. -/
theorem constraintsForBodies_err (points : List Point2) :
    ∀ bodies : List CBody,
      (∃ b ∈ bodies, b.points.length < 2) →
      (constraintsForBodies points bodies).isOk = false := by
  intro bodies
  induction bodies with
  | nil =>
    intro h
    obtain ⟨b, hb, _⟩ := h
    cases hb
  | cons b rest ih =>
    intro h
    obtain ⟨bw, hbw, hlt⟩ := h
    rcases List.mem_cons.1 hbw with heq | hmem
    · subst heq
      rcases (by omega : bw.points.length = 0 ∨ bw.points.length = 1) with h0 | h1
      · rw [constraintsForBodies]
        unfold constraintsForBody
        rw [h0]
        rfl
      · rw [constraintsForBodies]
        unfold constraintsForBody
        rw [h1]
        rfl
    · cases hres : constraintsForBody points b with
      | error e =>
        rw [constraintsForBodies, hres]
        rfl
      | ok cs =>
        have hh := ih ⟨bw, hmem, hlt⟩
        cases hres2 : constraintsForBodies points rest with
        | error e =>
          rw [constraintsForBodies, hres, hres2]
          rfl
        | ok cs2 =>
          rw [hres2] at hh
          simp [Except.isOk, Except.toBool] at hh

/-- C9 (amended): on the first symbolic assembly, each body generates exactly
the claimed pairs of constant-distance constraints; the 3-point and >=4-point
cases take each length from the initial inter-point distance, while the
2-point case uses the body's STORED length; assembly aborts for any body with
fewer than 2 points. -/
theorem closure_constraints_spec (m : CModelDefinition)
    (hflag : m.already_added_fixed_len_constraints = false) :
    ((∀ b ∈ m.bodies, 2 ≤ b.points.length ∧
        ∀ j, j < b.points.length → b.points.getD j 0 < m.points.length) →
      (m.assembleRigidMBS).map (fun r => r.2.constraints) =
        Except.ok (m.constraints ++
          m.bodies.flatMap (expectedBodyConstraints m.points))) ∧
    ((∃ b ∈ m.bodies, b.points.length < 2) →
      (m.assembleRigidMBS).isOk = false) := by
  constructor
  · intro h
    unfold CModelDefinition.assembleRigidMBS
    rw [if_neg (by rw [hflag]; exact Bool.false_ne_true)]
    rw [constraintsForBodies_eq m.points m.bodies h]
    rfl
  · intro h
    unfold CModelDefinition.assembleRigidMBS
    rw [if_neg (by rw [hflag]; exact Bool.false_ne_true)]
    have hh := constraintsForBodies_err m.points m.bodies h
    cases hres : constraintsForBodies m.points m.bodies with
    | error e => rfl
    | ok cs =>
      rw [hres] at hh
      simp [Except.isOk, Except.toBool] at hh

/-- Model for the C9 counterexample: a 2-point body whose stored length is 5
while its two points are at distance 1. -/
def c9Model : CModelDefinition :=
  ⟨[⟨⟨0, 0⟩, true⟩, ⟨⟨1, 0⟩, true⟩],
   [⟨[0, 1], 5, 1, ⟨0, 0⟩, zeroMat2, zeroMat2, zeroMat2⟩], [], false⟩

/-- Counterexample to C9 as stated: the 2-point body's generated constraint
carries the stored length 5, not the initial inter-point distance 1. -/
theorem closure_constraints_claim_counterexample :
    (c9Model.assembleRigidMBS).map (fun r => r.2.constraints) =
      Except.ok [CConstraint.constantDistance 0 1 5] ∧
    ptDist (⟨0, 0⟩ : TPoint2D) ⟨1, 0⟩ = 1 ∧ (5 : ℝ) ≠ 1 := by
  refine ⟨rfl, ?_, by norm_num⟩
  unfold ptDist
  rw [show ((0 : ℝ) - 1) ^ 2 + ((0 : ℝ) - 0) ^ 2 = 1 by norm_num]
  exact Real.sqrt_one

/-- Model for the C9 witness: one 2-point body and one 3-point body. -/
def c9WitModel : CModelDefinition :=
  ⟨[⟨⟨0, 0⟩, true⟩, ⟨⟨1, 0⟩, false⟩, ⟨⟨0, 1⟩, false⟩],
   [⟨[0, 1], 7, 1, ⟨0, 0⟩, zeroMat2, zeroMat2, zeroMat2⟩,
    ⟨[0, 1, 2], 1, 1, ⟨0, 0⟩, zeroMat2, zeroMat2, zeroMat2⟩], [], false⟩

/-- Model with an invalid 1-point body, for the witness's abort branch. -/
def c9BadModel : CModelDefinition :=
  ⟨[⟨⟨0, 0⟩, true⟩],
   [⟨[0], 1, 1, ⟨0, 0⟩, zeroMat2, zeroMat2, zeroMat2⟩], [], false⟩

/-- Witness for C9: `closure_constraints_spec` on the concrete models, with
both the generation branch and the abort branch discharged. -/
theorem closure_constraints_spec_witness :
    (c9WitModel.assembleRigidMBS).map (fun r => r.2.constraints) =
      Except.ok (c9WitModel.constraints ++
        c9WitModel.bodies.flatMap (expectedBodyConstraints c9WitModel.points)) ∧
    (c9BadModel.assembleRigidMBS).isOk = false := by
  constructor
  · exact (closure_constraints_spec c9WitModel rfl).1 (by decide)
  · exact (closure_constraints_spec c9BadModel rfl).2
      ⟨⟨[0], 1, 1, ⟨0, 0⟩, zeroMat2, zeroMat2, zeroMat2⟩,
        List.mem_cons_self _ _, by decide⟩

/-- Componentwise equality of 2D points. -/
theorem TPoint2D.eq_of_xy (p q : TPoint2D) (hx : p.x = q.x) (hy : p.y = q.y) :
    p = q := by
  cases p
  cases q
  cases hx
  cases hy
  rfl

/-- A conditional write preserves the row width. -/
theorem optSet_length (r : List ℝ) (o : Option ℕ) (e : ℝ) :
    (optSet r o e).length = r.length := by
  cases o with
  | none => rfl
  | some i => exact List.length_set r i e

/-- A conditional write at a column other than c leaves entry c unchanged. -/
theorem getD_optSet_miss (r : List ℝ) (o : Option ℕ) (e : ℝ) (c : ℕ)
    (ho : ∀ i, o = some i → i ≠ c) :
    (optSet r o e).getD c 0 = r.getD c 0 := by
  cases o with
  | none => rfl
  | some i => exact getD_set_of_ne r i c e (ho i rfl)

/-- A conditional write at column i makes entry i read e. -/
theorem getD_optSet_hit (r : List ℝ) (o : Option ℕ) (e : ℝ) (i : ℕ)
    (ho : o = some i) (hi : i < r.length) :
    (optSet r o e).getD i 0 = e := by
  subst ho
  exact getD_set_eq_of_lt r i e hi

/-- Entries of the H1 row outside every free DOF column are zero. -/
theorem gyroH1row_getD_zero (d0 d1 : Point2ToDOF) (n : ℕ)
    (pt0 pt1 v0 v1 : TPoint2D) (linv : ℝ) (c : ℕ)
    (h0x : ∀ i, d0.dof_x = some i → i ≠ c)
    (h0y : ∀ i, d0.dof_y = some i → i ≠ c)
    (h1x : ∀ i, d1.dof_x = some i → i ≠ c)
    (h1y : ∀ i, d1.dof_y = some i → i ≠ c) :
    (gyroH1row d0 d1 n pt0 pt1 v0 v1 linv).getD c 0 = 0 := by
  unfold gyroH1row
  rw [getD_optSet_miss _ _ _ _ h1y, getD_optSet_miss _ _ _ _ h1x,
    getD_optSet_miss _ _ _ _ h0y, getD_optSet_miss _ _ _ _ h0x]
  exact getD_replicate_zero n c

/-- Entries of the H2 row outside every free DOF column are zero. -/
theorem gyroH2row_getD_zero (d0 d1 : Point2ToDOF) (n : ℕ)
    (pt0 pt1 : TPoint2D) (linv : ℝ) (c : ℕ)
    (h0x : ∀ i, d0.dof_x = some i → i ≠ c)
    (h0y : ∀ i, d0.dof_y = some i → i ≠ c)
    (h1x : ∀ i, d1.dof_x = some i → i ≠ c)
    (h1y : ∀ i, d1.dof_y = some i → i ≠ c) :
    (gyroH2row d0 d1 n pt0 pt1 linv).getD c 0 = 0 := by
  unfold gyroH2row
  rw [getD_optSet_miss _ _ _ _ h1y, getD_optSet_miss _ _ _ _ h1x,
    getD_optSet_miss _ _ _ _ h0y, getD_optSet_miss _ _ _ _ h0x]
  exact getD_replicate_zero n c

/-- Reading the H1 row at the column of pt0's x DOF. -/
theorem gyroH1row_getD_d0x (d0 d1 : Point2ToDOF) (n : ℕ)
    (pt0 pt1 v0 v1 : TPoint2D) (linv : ℝ) (i : ℕ)
    (h : d0.dof_x = some i) (hi : i < n)
    (h0y : ∀ j, d0.dof_y = some j → j ≠ i)
    (h1x : ∀ j, d1.dof_x = some j → j ≠ i)
    (h1y : ∀ j, d1.dof_y = some j → j ≠ i) :
    (gyroH1row d0 d1 n pt0 pt1 v0 v1 linv).getD i 0 =
      gyroH1_p0x pt0 pt1 v0 v1 linv := by
  unfold gyroH1row
  rw [getD_optSet_miss _ _ _ _ h1y, getD_optSet_miss _ _ _ _ h1x,
    getD_optSet_miss _ _ _ _ h0y]
  exact getD_optSet_hit _ _ _ _ h (by rw [List.length_replicate]; exact hi)

/-- Reading the H1 row at the column of pt0's y DOF. -/
theorem gyroH1row_getD_d0y (d0 d1 : Point2ToDOF) (n : ℕ)
    (pt0 pt1 v0 v1 : TPoint2D) (linv : ℝ) (i : ℕ)
    (h : d0.dof_y = some i) (hi : i < n)
    (h1x : ∀ j, d1.dof_x = some j → j ≠ i)
    (h1y : ∀ j, d1.dof_y = some j → j ≠ i) :
    (gyroH1row d0 d1 n pt0 pt1 v0 v1 linv).getD i 0 =
      gyroH1_p0y pt0 pt1 v0 v1 linv := by
  unfold gyroH1row
  rw [getD_optSet_miss _ _ _ _ h1y, getD_optSet_miss _ _ _ _ h1x]
  exact getD_optSet_hit _ _ _ _ h
    (by rw [optSet_length, List.length_replicate]; exact hi)

/-- Reading the H1 row at the column of pt1's x DOF. -/
theorem gyroH1row_getD_d1x (d0 d1 : Point2ToDOF) (n : ℕ)
    (pt0 pt1 v0 v1 : TPoint2D) (linv : ℝ) (i : ℕ)
    (h : d1.dof_x = some i) (hi : i < n)
    (h1y : ∀ j, d1.dof_y = some j → j ≠ i) :
    (gyroH1row d0 d1 n pt0 pt1 v0 v1 linv).getD i 0 =
      gyroH1_p1x pt0 pt1 v0 v1 linv := by
  unfold gyroH1row
  rw [getD_optSet_miss _ _ _ _ h1y]
  exact getD_optSet_hit _ _ _ _ h
    (by rw [optSet_length, optSet_length, List.length_replicate]; exact hi)

/-- Reading the H1 row at the column of pt1's y DOF. -/
theorem gyroH1row_getD_d1y (d0 d1 : Point2ToDOF) (n : ℕ)
    (pt0 pt1 v0 v1 : TPoint2D) (linv : ℝ) (i : ℕ)
    (h : d1.dof_y = some i) (hi : i < n) :
    (gyroH1row d0 d1 n pt0 pt1 v0 v1 linv).getD i 0 =
      gyroH1_p1y pt0 pt1 v0 v1 linv := by
  unfold gyroH1row
  exact getD_optSet_hit _ _ _ _ h
    (by rw [optSet_length, optSet_length, optSet_length,
      List.length_replicate]; exact hi)

/-- Reading the H2 row at the column of pt0's x DOF. -/
theorem gyroH2row_getD_d0x (d0 d1 : Point2ToDOF) (n : ℕ)
    (pt0 pt1 : TPoint2D) (linv : ℝ) (i : ℕ)
    (h : d0.dof_x = some i) (hi : i < n)
    (h0y : ∀ j, d0.dof_y = some j → j ≠ i)
    (h1x : ∀ j, d1.dof_x = some j → j ≠ i)
    (h1y : ∀ j, d1.dof_y = some j → j ≠ i) :
    (gyroH2row d0 d1 n pt0 pt1 linv).getD i 0 = gyroH2_p0x pt0 pt1 linv := by
  unfold gyroH2row
  rw [getD_optSet_miss _ _ _ _ h1y, getD_optSet_miss _ _ _ _ h1x,
    getD_optSet_miss _ _ _ _ h0y]
  exact getD_optSet_hit _ _ _ _ h (by rw [List.length_replicate]; exact hi)

/-- Reading the H2 row at the column of pt0's y DOF. -/
theorem gyroH2row_getD_d0y (d0 d1 : Point2ToDOF) (n : ℕ)
    (pt0 pt1 : TPoint2D) (linv : ℝ) (i : ℕ)
    (h : d0.dof_y = some i) (hi : i < n)
    (h1x : ∀ j, d1.dof_x = some j → j ≠ i)
    (h1y : ∀ j, d1.dof_y = some j → j ≠ i) :
    (gyroH2row d0 d1 n pt0 pt1 linv).getD i 0 = gyroH2_p0y pt0 pt1 linv := by
  unfold gyroH2row
  rw [getD_optSet_miss _ _ _ _ h1y, getD_optSet_miss _ _ _ _ h1x]
  exact getD_optSet_hit _ _ _ _ h
    (by rw [optSet_length, List.length_replicate]; exact hi)

/-- Reading the H2 row at the column of pt1's x DOF. -/
theorem gyroH2row_getD_d1x (d0 d1 : Point2ToDOF) (n : ℕ)
    (pt0 pt1 : TPoint2D) (linv : ℝ) (i : ℕ)
    (h : d1.dof_x = some i) (hi : i < n)
    (h1y : ∀ j, d1.dof_y = some j → j ≠ i) :
    (gyroH2row d0 d1 n pt0 pt1 linv).getD i 0 = gyroH2_p1x pt0 pt1 linv := by
  unfold gyroH2row
  rw [getD_optSet_miss _ _ _ _ h1y]
  exact getD_optSet_hit _ _ _ _ h
    (by rw [optSet_length, optSet_length, List.length_replicate]; exact hi)

/-- Reading the H2 row at the column of pt1's y DOF. -/
theorem gyroH2row_getD_d1y (d0 d1 : Point2ToDOF) (n : ℕ)
    (pt0 pt1 : TPoint2D) (linv : ℝ) (i : ℕ)
    (h : d1.dof_y = some i) (hi : i < n) :
    (gyroH2row d0 d1 n pt0 pt1 linv).getD i 0 = gyroH2_p1y pt0 pt1 linv := by
  unfold gyroH2row
  exact getD_optSet_hit _ _ _ _ h
    (by rw [optSet_length, optSet_length, optSet_length,
      List.length_replicate]; exact hi)

/-- The shared model after the factor writes the candidate state into it. -/
def FactorGyroscope.armWith (f : FactorGyroscope) (q dq : List ℝ) :
    CAssembledRigidModel :=
  { f.arm with q := q, dotq := dq }

/-- The factor's designated body. -/
def FactorGyroscope.refBody (f : FactorGyroscope) : CBody :=
  f.arm.parent.bodies.getD f.body_idx default

/-- Global index of the body's first reference point. -/
def FactorGyroscope.pt0idx (f : FactorGyroscope) : ℕ := f.refBody.points.getD 0 0

/-- Global index of the body's second reference point. -/
def FactorGyroscope.pt1idx (f : FactorGyroscope) : ℕ := f.refBody.points.getD 1 0

/-- DOF columns of the first reference point. -/
def FactorGyroscope.dofs0 (f : FactorGyroscope) : Point2ToDOF :=
  f.arm.points2DOFs.getD f.pt0idx default

/-- DOF columns of the second reference point. -/
def FactorGyroscope.dofs1 (f : FactorGyroscope) : Point2ToDOF :=
  f.arm.points2DOFs.getD f.pt1idx default

/-- Current coordinates of the first reference point at a candidate state. -/
def FactorGyroscope.pt0At (f : FactorGyroscope) (q dq : List ℝ) : TPoint2D :=
  (f.armWith q dq).getPointCurrentCoords f.pt0idx

/-- Current coordinates of the second reference point at a candidate state. -/
def FactorGyroscope.pt1At (f : FactorGyroscope) (q dq : List ℝ) : TPoint2D :=
  (f.armWith q dq).getPointCurrentCoords f.pt1idx

/-- Current velocity of the first reference point at a candidate state. -/
def FactorGyroscope.v0At (f : FactorGyroscope) (q dq : List ℝ) : TPoint2D :=
  (f.armWith q dq).getPointCurrentVelocity f.pt0idx

/-- Current velocity of the second reference point at a candidate state. -/
def FactorGyroscope.v1At (f : FactorGyroscope) (q dq : List ℝ) : TPoint2D :=
  (f.armWith q dq).getPointCurrentVelocity f.pt1idx

/-- The `1/len` factor at a candidate state. -/
def FactorGyroscope.lenInvAt (f : FactorGyroscope) (q dq : List ℝ) : ℝ :=
  1 / Real.sqrt (((f.pt1At q dq).x - (f.pt0At q dq).x) ^ 2 +
    ((f.pt1At q dq).y - (f.pt0At q dq).y) ^ 2)

/-- The H1 Jacobian row the factor returns at a candidate state. -/
def FactorGyroscope.H1At (f : FactorGyroscope) (q dq : List ℝ) : List ℝ :=
  gyroH1row f.dofs0 f.dofs1 q.length (f.pt0At q dq) (f.pt1At q dq)
    (f.v0At q dq) (f.v1At q dq) (f.lenInvAt q dq)

/-- The H2 Jacobian row the factor returns at a candidate state. -/
def FactorGyroscope.H2At (f : FactorGyroscope) (q dq : List ℝ) : List ℝ :=
  gyroH2row f.dofs0 f.dofs1 q.length (f.pt0At q dq) (f.pt1At q dq)
    (f.lenInvAt q dq)

/-- The DOF columns of the four endpoint axes that are free. -/
def FactorGyroscope.freeCols (f : FactorGyroscope) : List ℕ :=
  [f.dofs0.dof_x, f.dofs0.dof_y, f.dofs1.dof_x, f.dofs1.dof_y].filterMap id

/-- The factor residual written through the per-state point projections. -/
theorem residualAt_eq (f : FactorGyroscope) (q dq : List ℝ) :
    f.residualAt q dq =
      gyroW (f.pt0At q dq) (f.pt1At q dq) (f.v0At q dq) (f.v1At q dq) -
        f.reading := rfl

/-- An x accessor on a free x axis reads the q entry at its DOF column. -/
theorem coords_x_hit (m : CAssembledRigidModel) (p i : ℕ)
    (h : (m.points2DOFs.getD p default).dof_x = some i) :
    (m.getPointCurrentCoords p).x = m.q.getD i 0 := by
  simp only [CAssembledRigidModel.getPointCurrentCoords, h]

/-- A y accessor on a free y axis reads the q entry at its DOF column. -/
theorem coords_y_hit (m : CAssembledRigidModel) (p i : ℕ)
    (h : (m.points2DOFs.getD p default).dof_y = some i) :
    (m.getPointCurrentCoords p).y = m.q.getD i 0 := by
  simp only [CAssembledRigidModel.getPointCurrentCoords, h]

/-- A velocity x accessor on a free x axis reads the dq entry at its column. -/
theorem vel_x_hit (m : CAssembledRigidModel) (p i : ℕ)
    (h : (m.points2DOFs.getD p default).dof_x = some i) :
    (m.getPointCurrentVelocity p).x = m.dotq.getD i 0 := by
  simp only [CAssembledRigidModel.getPointCurrentVelocity, h]

/-- A velocity y accessor on a free y axis reads the dq entry at its column. -/
theorem vel_y_hit (m : CAssembledRigidModel) (p i : ℕ)
    (h : (m.points2DOFs.getD p default).dof_y = some i) :
    (m.getPointCurrentVelocity p).y = m.dotq.getD i 0 := by
  simp only [CAssembledRigidModel.getPointCurrentVelocity, h]

/-- Pairwise distinctness of the four optional DOF columns, extracted from the
Nodup property of the filtered column list. -/
theorem nodup4 (a b c d : Option ℕ)
    (h : ([a, b, c, d].filterMap id).Nodup) :
    (∀ i j, a = some i → b = some j → i ≠ j) ∧
    (∀ i j, a = some i → c = some j → i ≠ j) ∧
    (∀ i j, a = some i → d = some j → i ≠ j) ∧
    (∀ i j, b = some i → c = some j → i ≠ j) ∧
    (∀ i j, b = some i → d = some j → i ≠ j) ∧
    (∀ i j, c = some i → d = some j → i ≠ j) := by
  refine ⟨?_, ?_, ?_, ?_, ?_, ?_⟩
  · intro i j hi hj
    subst hi
    subst hj
    rcases c with _ | cv <;> rcases d with _ | dv <;>
      simp_all [List.filterMap_cons, List.nodup_cons]
  · intro i j hi hj
    subst hi
    subst hj
    rcases b with _ | bv <;> rcases d with _ | dv <;>
      simp_all [List.filterMap_cons, List.nodup_cons]
  · intro i j hi hj
    subst hi
    subst hj
    rcases b with _ | bv <;> rcases c with _ | cv <;>
      simp_all [List.filterMap_cons, List.nodup_cons]
  · intro i j hi hj
    subst hi
    subst hj
    rcases a with _ | av <;> rcases d with _ | dv <;>
      simp_all [List.filterMap_cons, List.nodup_cons]
  · intro i j hi hj
    subst hi
    subst hj
    rcases a with _ | av <;> rcases c with _ | cv <;>
      simp_all [List.filterMap_cons, List.nodup_cons]
  · intro i j hi hj
    subst hi
    subst hj
    rcases a with _ | av <;> rcases b with _ | bv <;>
      simp_all [List.filterMap_cons, List.nodup_cons]

/-- Writing q at the column of a free x axis changes that point's x reading. -/
theorem coords_x_set_hit (m : CAssembledRigidModel) (p i : ℕ) (t : ℝ)
    (h : (m.points2DOFs.getD p default).dof_x = some i) (hi : i < m.q.length) :
    (CAssembledRigidModel.getPointCurrentCoords
      { m with q := m.q.set i t } p).x = t := by
  simp only [CAssembledRigidModel.getPointCurrentCoords, h]
  exact getD_set_eq_of_lt m.q i t hi

/-- Writing q at the column of a free y axis changes that point's y reading. -/
theorem coords_y_set_hit (m : CAssembledRigidModel) (p i : ℕ) (t : ℝ)
    (h : (m.points2DOFs.getD p default).dof_y = some i) (hi : i < m.q.length) :
    (CAssembledRigidModel.getPointCurrentCoords
      { m with q := m.q.set i t } p).y = t := by
  simp only [CAssembledRigidModel.getPointCurrentCoords, h]
  exact getD_set_eq_of_lt m.q i t hi

/-- Writing q at a column that is not the point's x column leaves x alone. -/
theorem coords_x_set_miss (m : CAssembledRigidModel) (p i : ℕ) (t : ℝ)
    (h : ∀ j, (m.points2DOFs.getD p default).dof_x = some j → j ≠ i) :
    (CAssembledRigidModel.getPointCurrentCoords
      { m with q := m.q.set i t } p).x = (m.getPointCurrentCoords p).x := by
  simp only [CAssembledRigidModel.getPointCurrentCoords]
  cases hd : (m.points2DOFs.getD p default).dof_x with
  | none => rfl
  | some j => exact getD_set_of_ne m.q i j t (Ne.symm (h j hd))

/-- Writing q at a column that is not the point's y column leaves y alone. -/
theorem coords_y_set_miss (m : CAssembledRigidModel) (p i : ℕ) (t : ℝ)
    (h : ∀ j, (m.points2DOFs.getD p default).dof_y = some j → j ≠ i) :
    (CAssembledRigidModel.getPointCurrentCoords
      { m with q := m.q.set i t } p).y = (m.getPointCurrentCoords p).y := by
  simp only [CAssembledRigidModel.getPointCurrentCoords]
  cases hd : (m.points2DOFs.getD p default).dof_y with
  | none => rfl
  | some j => exact getD_set_of_ne m.q i j t (Ne.symm (h j hd))

/-- Writing dq at the column of a free x axis changes that velocity's x. -/
theorem vel_x_set_hit (m : CAssembledRigidModel) (p i : ℕ) (t : ℝ)
    (h : (m.points2DOFs.getD p default).dof_x = some i)
    (hi : i < m.dotq.length) :
    (CAssembledRigidModel.getPointCurrentVelocity
      { m with dotq := m.dotq.set i t } p).x = t := by
  simp only [CAssembledRigidModel.getPointCurrentVelocity, h]
  exact getD_set_eq_of_lt m.dotq i t hi

/-- Writing dq at the column of a free y axis changes that velocity's y. -/
theorem vel_y_set_hit (m : CAssembledRigidModel) (p i : ℕ) (t : ℝ)
    (h : (m.points2DOFs.getD p default).dof_y = some i)
    (hi : i < m.dotq.length) :
    (CAssembledRigidModel.getPointCurrentVelocity
      { m with dotq := m.dotq.set i t } p).y = t := by
  simp only [CAssembledRigidModel.getPointCurrentVelocity, h]
  exact getD_set_eq_of_lt m.dotq i t hi

/-- Writing dq away from the point's x column leaves the velocity x alone. -/
theorem vel_x_set_miss (m : CAssembledRigidModel) (p i : ℕ) (t : ℝ)
    (h : ∀ j, (m.points2DOFs.getD p default).dof_x = some j → j ≠ i) :
    (CAssembledRigidModel.getPointCurrentVelocity
      { m with dotq := m.dotq.set i t } p).x =
      (m.getPointCurrentVelocity p).x := by
  simp only [CAssembledRigidModel.getPointCurrentVelocity]
  cases hd : (m.points2DOFs.getD p default).dof_x with
  | none => rfl
  | some j => exact getD_set_of_ne m.dotq i j t (Ne.symm (h j hd))

/-- Writing dq away from the point's y column leaves the velocity y alone. -/
theorem vel_y_set_miss (m : CAssembledRigidModel) (p i : ℕ) (t : ℝ)
    (h : ∀ j, (m.points2DOFs.getD p default).dof_y = some j → j ≠ i) :
    (CAssembledRigidModel.getPointCurrentVelocity
      { m with dotq := m.dotq.set i t } p).y =
      (m.getPointCurrentVelocity p).y := by
  simp only [CAssembledRigidModel.getPointCurrentVelocity]
  cases hd : (m.points2DOFs.getD p default).dof_y with
  | none => rfl
  | some j => exact getD_set_of_ne m.dotq i j t (Ne.symm (h j hd))

/-- A free x column of point 0 is among the free columns. -/
theorem mem_freeCols_d0x (f : FactorGyroscope) (i : ℕ)
    (h : f.dofs0.dof_x = some i) : i ∈ f.freeCols := by
  unfold FactorGyroscope.freeCols
  exact List.mem_filterMap.2
    ⟨f.dofs0.dof_x, List.mem_cons_self _ _, by rw [h]; rfl⟩

/-- A free y column of point 0 is among the free columns. -/
theorem mem_freeCols_d0y (f : FactorGyroscope) (i : ℕ)
    (h : f.dofs0.dof_y = some i) : i ∈ f.freeCols := by
  unfold FactorGyroscope.freeCols
  exact List.mem_filterMap.2
    ⟨f.dofs0.dof_y, List.mem_cons_of_mem _ (List.mem_cons_self _ _),
      by rw [h]; rfl⟩

/-- A free x column of point 1 is among the free columns. -/
theorem mem_freeCols_d1x (f : FactorGyroscope) (i : ℕ)
    (h : f.dofs1.dof_x = some i) : i ∈ f.freeCols := by
  unfold FactorGyroscope.freeCols
  exact List.mem_filterMap.2
    ⟨f.dofs1.dof_x,
      List.mem_cons_of_mem _ (List.mem_cons_of_mem _ (List.mem_cons_self _ _)),
      by rw [h]; rfl⟩

/-- A free y column of point 1 is among the free columns. -/
theorem mem_freeCols_d1y (f : FactorGyroscope) (i : ℕ)
    (h : f.dofs1.dof_y = some i) : i ∈ f.freeCols := by
  unfold FactorGyroscope.freeCols
  exact List.mem_filterMap.2
    ⟨f.dofs1.dof_y,
      List.mem_cons_of_mem _ (List.mem_cons_of_mem _
        (List.mem_cons_of_mem _ (List.mem_cons_self _ _))),
      by rw [h]; rfl⟩

/-- C1: on a nondegenerate configuration with distinct valid DOF columns,
FactorGyroscope::evaluateError returns the analytic Jacobian rows H1 and H2;
every column outside the free DOF columns is zero, and for each endpoint axis
that is free (independently, covering all 16 free/fixed combinations) the H1
entry at its column is the true derivative of the residual with respect to
that q entry, and the H2 entry is the true derivative with respect to that dq
entry. -/
theorem gyro_jacobians_correct (f : FactorGyroscope) (q dq : List ℝ)
    (wantH1 wantH2 : Bool)
    (hlen : dq.length = q.length) (hn : 1 ≤ q.length)
    (hbody : f.body_idx < f.arm.parent.bodies.length)
    (hD : 0 < ((f.pt1At q dq).x - (f.pt0At q dq).x) ^ 2 +
      ((f.pt1At q dq).y - (f.pt0At q dq).y) ^ 2)
    (hnodup : f.freeCols.Nodup)
    (hcols : ∀ c ∈ f.freeCols, c < q.length) :
    f.evaluateError q dq wantH1 wantH2 = Except.ok
      ⟨[f.residualAt q dq],
        if wantH1 then some (f.H1At q dq) else none,
        if wantH2 then some (f.H2At q dq) else none,
        f.armWith q dq⟩ ∧
    (∀ c, c ∉ f.freeCols →
      (f.H1At q dq).getD c 0 = 0 ∧ (f.H2At q dq).getD c 0 = 0) ∧
    (∀ i, f.dofs0.dof_x = some i →
      HasDerivAt (fun t => f.residualAt (q.set i t) dq)
        ((f.H1At q dq).getD i 0) (q.getD i 0) ∧
      HasDerivAt (fun t => f.residualAt q (dq.set i t))
        ((f.H2At q dq).getD i 0) (dq.getD i 0)) ∧
    (∀ i, f.dofs0.dof_y = some i →
      HasDerivAt (fun t => f.residualAt (q.set i t) dq)
        ((f.H1At q dq).getD i 0) (q.getD i 0) ∧
      HasDerivAt (fun t => f.residualAt q (dq.set i t))
        ((f.H2At q dq).getD i 0) (dq.getD i 0)) ∧
    (∀ i, f.dofs1.dof_x = some i →
      HasDerivAt (fun t => f.residualAt (q.set i t) dq)
        ((f.H1At q dq).getD i 0) (q.getD i 0) ∧
      HasDerivAt (fun t => f.residualAt q (dq.set i t))
        ((f.H2At q dq).getD i 0) (dq.getD i 0)) ∧
    (∀ i, f.dofs1.dof_y = some i →
      HasDerivAt (fun t => f.residualAt (q.set i t) dq)
        ((f.H1At q dq).getD i 0) (q.getD i 0) ∧
      HasDerivAt (fun t => f.residualAt q (dq.set i t))
        ((f.H2At q dq).getD i 0) (dq.getD i 0)) := by
  obtain ⟨h12, h13, h14, h23, h24, h34⟩ :=
    nodup4 f.dofs0.dof_x f.dofs0.dof_y f.dofs1.dof_x f.dofs1.dof_y hnodup
  refine ⟨?_, ?_, ?_, ?_, ?_, ?_⟩
  · have e1 : ¬(dq.length ≠ q.length) := by omega
    have e2 : ¬(q.length < 1) := by omega
    simp only [FactorGyroscope.evaluateError]
    rw [if_neg e1, if_neg e2, if_pos hbody]
    rfl
  · intro c hc
    constructor
    · exact gyroH1row_getD_zero f.dofs0 f.dofs1 q.length _ _ _ _ _ c
        (fun i hd he => hc (he ▸ mem_freeCols_d0x f i hd))
        (fun i hd he => hc (he ▸ mem_freeCols_d0y f i hd))
        (fun i hd he => hc (he ▸ mem_freeCols_d1x f i hd))
        (fun i hd he => hc (he ▸ mem_freeCols_d1y f i hd))
    · exact gyroH2row_getD_zero f.dofs0 f.dofs1 q.length _ _ _ c
        (fun i hd he => hc (he ▸ mem_freeCols_d0x f i hd))
        (fun i hd he => hc (he ▸ mem_freeCols_d0y f i hd))
        (fun i hd he => hc (he ▸ mem_freeCols_d1x f i hd))
        (fun i hd he => hc (he ▸ mem_freeCols_d1y f i hd))
  · intro i h
    have hi : i < q.length := hcols i (mem_freeCols_d0x f i h)
    have hi2 : i < dq.length := by rw [hlen]; exact hi
    have hx0 : (f.pt0At q dq).x = q.getD i 0 :=
      coords_x_hit (f.armWith q dq) f.pt0idx i h
    have hfun : (fun t => f.residualAt (q.set i t) dq) =
        (fun t => gyroW ⟨t, (f.pt0At q dq).y⟩ (f.pt1At q dq) (f.v0At q dq)
          (f.v1At q dq) - f.reading) := by
      funext t
      rw [residualAt_eq]
      have e0 : f.pt0At (q.set i t) dq = ⟨t, (f.pt0At q dq).y⟩ :=
        TPoint2D.eq_of_xy _ _
          (coords_x_set_hit (f.armWith q dq) f.pt0idx i t h hi)
          (coords_y_set_miss (f.armWith q dq) f.pt0idx i t
            (fun j hd => (h12 i j h hd).symm))
      have e1 : f.pt1At (q.set i t) dq = f.pt1At q dq :=
        TPoint2D.eq_of_xy _ _
          (coords_x_set_miss (f.armWith q dq) f.pt1idx i t
            (fun j hd => (h13 i j h hd).symm))
          (coords_y_set_miss (f.armWith q dq) f.pt1idx i t
            (fun j hd => (h14 i j h hd).symm))
      rw [e0, e1]
      rfl
    have hfun2 : (fun t => f.residualAt q (dq.set i t)) =
        (fun t => gyroW (f.pt0At q dq) (f.pt1At q dq) ⟨t, (f.v0At q dq).y⟩
          (f.v1At q dq) - f.reading) := by
      funext t
      rw [residualAt_eq]
      have e2 : f.v0At q (dq.set i t) = ⟨t, (f.v0At q dq).y⟩ :=
        TPoint2D.eq_of_xy _ _
          (vel_x_set_hit (f.armWith q dq) f.pt0idx i t h hi2)
          (vel_y_set_miss (f.armWith q dq) f.pt0idx i t
            (fun j hd => (h12 i j h hd).symm))
      have e3 : f.v1At q (dq.set i t) = f.v1At q dq :=
        TPoint2D.eq_of_xy _ _
          (vel_x_set_miss (f.armWith q dq) f.pt1idx i t
            (fun j hd => (h13 i j h hd).symm))
          (vel_y_set_miss (f.armWith q dq) f.pt1idx i t
            (fun j hd => (h14 i j h hd).symm))
      rw [e2, e3]
      rfl
    have hval1 : (f.H1At q dq).getD i 0 =
        gyroH1_p0x (f.pt0At q dq) (f.pt1At q dq) (f.v0At q dq) (f.v1At q dq)
          (f.lenInvAt q dq) :=
      gyroH1row_getD_d0x f.dofs0 f.dofs1 q.length _ _ _ _ _ i h hi
        (fun j hd => (h12 i j h hd).symm)
        (fun j hd => (h13 i j h hd).symm)
        (fun j hd => (h14 i j h hd).symm)
    have hval2 : (f.H2At q dq).getD i 0 =
        gyroH2_p0x (f.pt0At q dq) (f.pt1At q dq) (f.lenInvAt q dq) :=
      gyroH2row_getD_d0x f.dofs0 f.dofs1 q.length _ _ _ i h hi
        (fun j hd => (h12 i j h hd).symm)
        (fun j hd => (h13 i j h hd).symm)
        (fun j hd => (h14 i j h hd).symm)
    constructor
    · rw [hval1, ← hx0, hfun]
      exact (hasDerivAt_gyroW_p0x (f.pt0At q dq).y (f.pt1At q dq).x
        (f.pt1At q dq).y (f.v0At q dq).x (f.v0At q dq).y (f.v1At q dq).x
        (f.v1At q dq).y (f.pt0At q dq).x hD).sub_const f.reading
    · rw [hval2, hfun2]
      exact (hasDerivAt_gyroW_v0x (f.pt0At q dq).x (f.pt0At q dq).y
        (f.pt1At q dq).x (f.pt1At q dq).y (f.v0At q dq).y (f.v1At q dq).x
        (f.v1At q dq).y (dq.getD i 0) hD).sub_const f.reading
  · intro i h
    have hi : i < q.length := hcols i (mem_freeCols_d0y f i h)
    have hi2 : i < dq.length := by rw [hlen]; exact hi
    have hy0 : (f.pt0At q dq).y = q.getD i 0 :=
      coords_y_hit (f.armWith q dq) f.pt0idx i h
    have hfun : (fun t => f.residualAt (q.set i t) dq) =
        (fun t => gyroW ⟨(f.pt0At q dq).x, t⟩ (f.pt1At q dq) (f.v0At q dq)
          (f.v1At q dq) - f.reading) := by
      funext t
      rw [residualAt_eq]
      have e0 : f.pt0At (q.set i t) dq = ⟨(f.pt0At q dq).x, t⟩ :=
        TPoint2D.eq_of_xy _ _
          (coords_x_set_miss (f.armWith q dq) f.pt0idx i t
            (fun j hd => h12 j i hd h))
          (coords_y_set_hit (f.armWith q dq) f.pt0idx i t h hi)
      have e1 : f.pt1At (q.set i t) dq = f.pt1At q dq :=
        TPoint2D.eq_of_xy _ _
          (coords_x_set_miss (f.armWith q dq) f.pt1idx i t
            (fun j hd => (h23 i j h hd).symm))
          (coords_y_set_miss (f.armWith q dq) f.pt1idx i t
            (fun j hd => (h24 i j h hd).symm))
      rw [e0, e1]
      rfl
    have hfun2 : (fun t => f.residualAt q (dq.set i t)) =
        (fun t => gyroW (f.pt0At q dq) (f.pt1At q dq) ⟨(f.v0At q dq).x, t⟩
          (f.v1At q dq) - f.reading) := by
      funext t
      rw [residualAt_eq]
      have e2 : f.v0At q (dq.set i t) = ⟨(f.v0At q dq).x, t⟩ :=
        TPoint2D.eq_of_xy _ _
          (vel_x_set_miss (f.armWith q dq) f.pt0idx i t
            (fun j hd => h12 j i hd h))
          (vel_y_set_hit (f.armWith q dq) f.pt0idx i t h hi2)
      have e3 : f.v1At q (dq.set i t) = f.v1At q dq :=
        TPoint2D.eq_of_xy _ _
          (vel_x_set_miss (f.armWith q dq) f.pt1idx i t
            (fun j hd => (h23 i j h hd).symm))
          (vel_y_set_miss (f.armWith q dq) f.pt1idx i t
            (fun j hd => (h24 i j h hd).symm))
      rw [e2, e3]
      rfl
    have hval1 : (f.H1At q dq).getD i 0 =
        gyroH1_p0y (f.pt0At q dq) (f.pt1At q dq) (f.v0At q dq) (f.v1At q dq)
          (f.lenInvAt q dq) :=
      gyroH1row_getD_d0y f.dofs0 f.dofs1 q.length _ _ _ _ _ i h hi
        (fun j hd => (h23 i j h hd).symm)
        (fun j hd => (h24 i j h hd).symm)
    have hval2 : (f.H2At q dq).getD i 0 =
        gyroH2_p0y (f.pt0At q dq) (f.pt1At q dq) (f.lenInvAt q dq) :=
      gyroH2row_getD_d0y f.dofs0 f.dofs1 q.length _ _ _ i h hi
        (fun j hd => (h23 i j h hd).symm)
        (fun j hd => (h24 i j h hd).symm)
    constructor
    · rw [hval1, ← hy0, hfun]
      exact (hasDerivAt_gyroW_p0y (f.pt0At q dq).x (f.pt1At q dq).x
        (f.pt1At q dq).y (f.v0At q dq).x (f.v0At q dq).y (f.v1At q dq).x
        (f.v1At q dq).y (f.pt0At q dq).y hD).sub_const f.reading
    · rw [hval2, hfun2]
      exact (hasDerivAt_gyroW_v0y (f.pt0At q dq).x (f.pt0At q dq).y
        (f.pt1At q dq).x (f.pt1At q dq).y (f.v0At q dq).x (f.v1At q dq).x
        (f.v1At q dq).y (dq.getD i 0) hD).sub_const f.reading
  · intro i h
    have hi : i < q.length := hcols i (mem_freeCols_d1x f i h)
    have hi2 : i < dq.length := by rw [hlen]; exact hi
    have hx1 : (f.pt1At q dq).x = q.getD i 0 :=
      coords_x_hit (f.armWith q dq) f.pt1idx i h
    have hfun : (fun t => f.residualAt (q.set i t) dq) =
        (fun t => gyroW (f.pt0At q dq) ⟨t, (f.pt1At q dq).y⟩ (f.v0At q dq)
          (f.v1At q dq) - f.reading) := by
      funext t
      rw [residualAt_eq]
      have e0 : f.pt0At (q.set i t) dq = f.pt0At q dq :=
        TPoint2D.eq_of_xy _ _
          (coords_x_set_miss (f.armWith q dq) f.pt0idx i t
            (fun j hd => h13 j i hd h))
          (coords_y_set_miss (f.armWith q dq) f.pt0idx i t
            (fun j hd => h23 j i hd h))
      have e1 : f.pt1At (q.set i t) dq = ⟨t, (f.pt1At q dq).y⟩ :=
        TPoint2D.eq_of_xy _ _
          (coords_x_set_hit (f.armWith q dq) f.pt1idx i t h hi)
          (coords_y_set_miss (f.armWith q dq) f.pt1idx i t
            (fun j hd => (h34 i j h hd).symm))
      rw [e0, e1]
      rfl
    have hfun2 : (fun t => f.residualAt q (dq.set i t)) =
        (fun t => gyroW (f.pt0At q dq) (f.pt1At q dq) (f.v0At q dq)
          ⟨t, (f.v1At q dq).y⟩ - f.reading) := by
      funext t
      rw [residualAt_eq]
      have e2 : f.v0At q (dq.set i t) = f.v0At q dq :=
        TPoint2D.eq_of_xy _ _
          (vel_x_set_miss (f.armWith q dq) f.pt0idx i t
            (fun j hd => h13 j i hd h))
          (vel_y_set_miss (f.armWith q dq) f.pt0idx i t
            (fun j hd => h23 j i hd h))
      have e3 : f.v1At q (dq.set i t) = ⟨t, (f.v1At q dq).y⟩ :=
        TPoint2D.eq_of_xy _ _
          (vel_x_set_hit (f.armWith q dq) f.pt1idx i t h hi2)
          (vel_y_set_miss (f.armWith q dq) f.pt1idx i t
            (fun j hd => (h34 i j h hd).symm))
      rw [e2, e3]
      rfl
    have hval1 : (f.H1At q dq).getD i 0 =
        gyroH1_p1x (f.pt0At q dq) (f.pt1At q dq) (f.v0At q dq) (f.v1At q dq)
          (f.lenInvAt q dq) :=
      gyroH1row_getD_d1x f.dofs0 f.dofs1 q.length _ _ _ _ _ i h hi
        (fun j hd => (h34 i j h hd).symm)
    have hval2 : (f.H2At q dq).getD i 0 =
        gyroH2_p1x (f.pt0At q dq) (f.pt1At q dq) (f.lenInvAt q dq) :=
      gyroH2row_getD_d1x f.dofs0 f.dofs1 q.length _ _ _ i h hi
        (fun j hd => (h34 i j h hd).symm)
    constructor
    · rw [hval1, ← hx1, hfun]
      exact (hasDerivAt_gyroW_p1x (f.pt0At q dq).x (f.pt0At q dq).y
        (f.pt1At q dq).y (f.v0At q dq).x (f.v0At q dq).y (f.v1At q dq).x
        (f.v1At q dq).y (f.pt1At q dq).x hD).sub_const f.reading
    · rw [hval2, hfun2]
      exact (hasDerivAt_gyroW_v1x (f.pt0At q dq).x (f.pt0At q dq).y
        (f.pt1At q dq).x (f.pt1At q dq).y (f.v0At q dq).x (f.v0At q dq).y
        (f.v1At q dq).y (dq.getD i 0) hD).sub_const f.reading
  · intro i h
    have hi : i < q.length := hcols i (mem_freeCols_d1y f i h)
    have hi2 : i < dq.length := by rw [hlen]; exact hi
    have hy1 : (f.pt1At q dq).y = q.getD i 0 :=
      coords_y_hit (f.armWith q dq) f.pt1idx i h
    have hfun : (fun t => f.residualAt (q.set i t) dq) =
        (fun t => gyroW (f.pt0At q dq) ⟨(f.pt1At q dq).x, t⟩ (f.v0At q dq)
          (f.v1At q dq) - f.reading) := by
      funext t
      rw [residualAt_eq]
      have e0 : f.pt0At (q.set i t) dq = f.pt0At q dq :=
        TPoint2D.eq_of_xy _ _
          (coords_x_set_miss (f.armWith q dq) f.pt0idx i t
            (fun j hd => h14 j i hd h))
          (coords_y_set_miss (f.armWith q dq) f.pt0idx i t
            (fun j hd => h24 j i hd h))
      have e1 : f.pt1At (q.set i t) dq = ⟨(f.pt1At q dq).x, t⟩ :=
        TPoint2D.eq_of_xy _ _
          (coords_x_set_miss (f.armWith q dq) f.pt1idx i t
            (fun j hd => h34 j i hd h))
          (coords_y_set_hit (f.armWith q dq) f.pt1idx i t h hi)
      rw [e0, e1]
      rfl
    have hfun2 : (fun t => f.residualAt q (dq.set i t)) =
        (fun t => gyroW (f.pt0At q dq) (f.pt1At q dq) (f.v0At q dq)
          ⟨(f.v1At q dq).x, t⟩ - f.reading) := by
      funext t
      rw [residualAt_eq]
      have e2 : f.v0At q (dq.set i t) = f.v0At q dq :=
        TPoint2D.eq_of_xy _ _
          (vel_x_set_miss (f.armWith q dq) f.pt0idx i t
            (fun j hd => h14 j i hd h))
          (vel_y_set_miss (f.armWith q dq) f.pt0idx i t
            (fun j hd => h24 j i hd h))
      have e3 : f.v1At q (dq.set i t) = ⟨(f.v1At q dq).x, t⟩ :=
        TPoint2D.eq_of_xy _ _
          (vel_x_set_miss (f.armWith q dq) f.pt1idx i t
            (fun j hd => h34 j i hd h))
          (vel_y_set_hit (f.armWith q dq) f.pt1idx i t h hi2)
      rw [e2, e3]
      rfl
    have hval1 : (f.H1At q dq).getD i 0 =
        gyroH1_p1y (f.pt0At q dq) (f.pt1At q dq) (f.v0At q dq) (f.v1At q dq)
          (f.lenInvAt q dq) :=
      gyroH1row_getD_d1y f.dofs0 f.dofs1 q.length _ _ _ _ _ i h hi
    have hval2 : (f.H2At q dq).getD i 0 =
        gyroH2_p1y (f.pt0At q dq) (f.pt1At q dq) (f.lenInvAt q dq) :=
      gyroH2row_getD_d1y f.dofs0 f.dofs1 q.length _ _ _ i h hi
    constructor
    · rw [hval1, ← hy1, hfun]
      exact (hasDerivAt_gyroW_p1y (f.pt0At q dq).x (f.pt0At q dq).y
        (f.pt1At q dq).x (f.v0At q dq).x (f.v0At q dq).y (f.v1At q dq).x
        (f.v1At q dq).y (f.pt1At q dq).y hD).sub_const f.reading
    · rw [hval2, hfun2]
      exact (hasDerivAt_gyroW_v1y (f.pt0At q dq).x (f.pt0At q dq).y
        (f.pt1At q dq).x (f.pt1At q dq).y (f.v0At q dq).x (f.v0At q dq).y
        (f.v1At q dq).x (dq.getD i 0) hD).sub_const f.reading

/-- Witness for C1: `gyro_jacobians_correct` on the concrete factor at
q = (0,0,1,0), dq = (0,0,0,1): the evaluator returns the analytic rows, the
entries at column 0 are true derivatives, and an unused column reads zero. -/
theorem gyro_jacobians_correct_witness :
    exFactor.evaluateError [0, 0, 1, 0] [0, 0, 0, 1] true true = Except.ok
      ⟨[exFactor.residualAt [0, 0, 1, 0] [0, 0, 0, 1]],
       some (exFactor.H1At [0, 0, 1, 0] [0, 0, 0, 1]),
       some (exFactor.H2At [0, 0, 1, 0] [0, 0, 0, 1]),
       exFactor.armWith [0, 0, 1, 0] [0, 0, 0, 1]⟩ ∧
    HasDerivAt
      (fun t => exFactor.residualAt (List.set [0, 0, 1, 0] 0 t) [0, 0, 0, 1])
      ((exFactor.H1At [0, 0, 1, 0] [0, 0, 0, 1]).getD 0 0)
      (List.getD [0, 0, 1, 0] 0 0) ∧
    HasDerivAt
      (fun t => exFactor.residualAt [0, 0, 1, 0] (List.set [0, 0, 0, 1] 0 t))
      ((exFactor.H2At [0, 0, 1, 0] [0, 0, 0, 1]).getD 0 0)
      (List.getD [0, 0, 0, 1] 0 0) ∧
    (exFactor.H1At [0, 0, 1, 0] [0, 0, 0, 1]).getD 7 0 = 0 := by
  have hpt0 : exFactor.pt0At [0, 0, 1, 0] [0, 0, 0, 1] = ⟨0, 0⟩ := rfl
  have hpt1 : exFactor.pt1At [0, 0, 1, 0] [0, 0, 0, 1] = ⟨1, 0⟩ := rfl
  have hD : 0 < ((exFactor.pt1At [0, 0, 1, 0] [0, 0, 0, 1]).x -
      (exFactor.pt0At [0, 0, 1, 0] [0, 0, 0, 1]).x) ^ 2 +
      ((exFactor.pt1At [0, 0, 1, 0] [0, 0, 0, 1]).y -
      (exFactor.pt0At [0, 0, 1, 0] [0, 0, 0, 1]).y) ^ 2 := by
    rw [hpt0, hpt1]
    norm_num
  have h := gyro_jacobians_correct exFactor [0, 0, 1, 0] [0, 0, 0, 1]
    true true (by decide) (by decide) (by decide) hD (by decide) (by decide)
  exact ⟨h.1, (h.2.2.1 0 rfl).1, (h.2.2.1 0 rfl).2, (h.2.1 7 (by decide)).1⟩

end
